import Mathlib

/-!
# flutter_device_info_plus: Windows plugin

A shallow embedding of `windows/flutter_device_info_plus_plugin.cpp`.

Every function of the plugin is a read of operating-system state followed by a
little decoding.  The embedding makes the answer of each OS call an explicit
argument: a leaf getter takes the result of the call it makes, an aggregator
takes an `OS` record that holds the result of every call made on its path.

Conventions
* `std::string` is `String`; a `char` buffer is a `List Char` and
  `std::string(buf)` is `cString buf`, the characters before the first NUL.
* `BYTE`, `WORD`, `DWORD`, `DWORDLONG` fields are `Nat`, reduced `% 2 ^ w` where
  they are read; `int` and `int64_t` are `Int`, conversions to them wrap
  (`toInt32`, `toInt64`).
* a `double` is the rational number it denotes (`ℚ`); a conversion to `double`, a
  product and a quotient are rounded to the nearest `double`, ties to even, with
  a 53-bit significand (`roundIntToDouble`, `divDouble`).  The exponent range is
  not modelled: no value computed here comes near its ends.
* `flutter::EncodableMap` is `std::map<EncodableValue, EncodableValue>`; every key
  this plugin uses is an `EncodableValue` holding a `std::string`, so the map is
  an association list keyed by that string, and `m[k] = v` is `EncodableMap.set`.
-/

namespace flutter_device_info_plus

/-! ## Machine integers -/

/-- Two's-complement reinterpretation of the low `w` bits of `n` as a signed value. -/
def toSigned (w : Nat) (n : Int) : Int :=
  if n % 2 ^ w < 2 ^ (w - 1) then n % 2 ^ w else n % 2 ^ w - 2 ^ w

/-- Conversion to `int` (32-bit). -/
def toInt32 (n : Int) : Int := toSigned 32 n

/-- Conversion to `int64_t`. -/
def toInt64 (n : Int) : Int := toSigned 64 n

/-! ## Strings and buffers -/

/-- The terminating character of a C string. -/
def NUL : Char := Char.ofNat 0

/-- The conversion `std::string(buf)` for a `char` buffer: the characters before the first NUL. -/
def cString (buf : List Char) : String :=
  String.mk (buf.takeWhile (fun c => c != NUL))

/-- Writing `data` at the start of a buffer `buf` (the rest of `buf` is kept). -/
def writeBuffer (buf data : List Char) : List Char :=
  data ++ buf.drop data.length

/-! ## Encodable values -/

/-- The variants of `flutter::EncodableValue` that the plugin builds. -/
inductive EncodableValue where
  | bool (b : Bool)
  | int32 (i : Int)
  | int64 (i : Int)
  | double (d : ℚ)
  | string (s : String)
  | list (l : List EncodableValue)
  | map (m : List (String × EncodableValue))

/-- An `EncodableList`. -/
abbrev EncodableList := List EncodableValue

/-- An `EncodableMap`, keyed by the string of its key value. -/
abbrev EncodableMap := List (String × EncodableValue)

/-- The assignment `m[k] = v`: overwrite the entry of `k`, or add one. -/
def EncodableMap.set : EncodableMap → String → EncodableValue → EncodableMap
  | [], k, v => [(k, v)]
  | (k', v') :: m, k, v =>
    if k' = k then (k, v) :: m else (k', v') :: EncodableMap.set m k v

/-- Lookup of a key. -/
def EncodableMap.get? : EncodableMap → String → Option EncodableValue
  | [], _ => none
  | (k', v') :: m, k => if k' = k then some v' else EncodableMap.get? m k

/-- The keys of a map. -/
def EncodableMap.keys (m : EncodableMap) : List String := m.map Prod.fst

/-- What a `MethodResult` is told. -/
inductive MethodResult where
  | Success (value : EncodableValue)
  | NotImplemented

/-! ## Battery -/

/-- The fields of `SYSTEM_POWER_STATUS` that are read (both are `BYTE`). -/
structure SYSTEM_POWER_STATUS where
  ACLineStatus : Nat
  BatteryLifePercent : Nat

/-- The value of the local `chargingStatus` of `GetBatteryInfo` after lines
164-169: the variable is initialised to "unknown" and then assigned in both
branches of the `if`, so the initial value is never the result. -/
def chargingStatus (status : SYSTEM_POWER_STATUS) : String :=
  if status.ACLineStatus % 256 = 1 then
    (if status.BatteryLifePercent % 256 = 100 then "full" else "charging")
  else
    "discharging"

/-- The function `GetBatteryInfo`; the argument is the outcome of `GetSystemPowerStatus`
(`none` when it returns FALSE). -/
def GetBatteryInfo (powerStatus : Option SYSTEM_POWER_STATUS) : EncodableMap :=
  let batteryInfo : EncodableMap := []
  match powerStatus with
  | some status =>
    let batteryInfo := batteryInfo.set "batteryLevel"
      (.int32 (toInt32 (status.BatteryLifePercent % 256)))
    let batteryInfo := batteryInfo.set "chargingStatus" (.string (chargingStatus status))
    let batteryInfo := batteryInfo.set "batteryHealth" (.string "good")
    let batteryInfo := batteryInfo.set "batteryCapacity" (.int32 0)
    let batteryInfo := batteryInfo.set "batteryVoltage" (.double 0)
    let batteryInfo := batteryInfo.set "batteryTemperature" (.double 0)
    batteryInfo
  | none => []

/-! ## Sensors -/

/-- The function `GetSensorInfo`. -/
def GetSensorInfo : EncodableMap :=
  let sensorInfo : EncodableMap := []
  let sensors : EncodableList := []
  let sensors := sensors ++ [.string "accelerometer"]
  sensorInfo.set "availableSensors" (.list sensors)

/-! ## Network -/

/-- The fields of one `IP_ADAPTER_INFO` node that are read: `Type` (a `UINT`),
`IpAddressList.IpAddress.String` (a `char[16]`) and `Address` (a `BYTE[8]`).  The
`Next` pointer is the position in the list of nodes. -/
structure IP_ADAPTER_INFO where
  Type_ : Nat
  IpAddressString : List Char
  Address : List Nat

/-- The test of both walks: `IF_TYPE_ETHERNET = 6`, `IF_TYPE_IEEE80211 = 71`. -/
def isEthernetOrWifi (a : IP_ADAPTER_INFO) : Bool :=
  a.Type_ % 2 ^ 32 == 6 || a.Type_ % 2 ^ 32 == 71

/-- The `do ... while (pAdapterInfo)` loop of `GetIPAddress`, at the node
`pAdapterInfo` with the nodes after it; `none` when the loop ends at a null
`Next` without returning. -/
def GetIPAddress.walk : IP_ADAPTER_INFO → List IP_ADAPTER_INFO → Option String
  | pAdapterInfo, [] =>
    if isEthernetOrWifi pAdapterInfo then
      some (cString pAdapterInfo.IpAddressString)
    else none
  | pAdapterInfo, p :: next =>
    if isEthernetOrWifi pAdapterInfo then
      some (cString pAdapterInfo.IpAddressString)
    else GetIPAddress.walk p next

/-- The function `GetIPAddress`; the argument is the outcome of `GetAdaptersInfo`: `none` when
it does not return `ERROR_SUCCESS`, otherwise the first node and the nodes that
follow it through `Next`. -/
def GetIPAddress (adapters : Option (IP_ADAPTER_INFO × List IP_ADAPTER_INFO)) : String :=
  match adapters with
  | some (adapterInfo, next) =>
    match GetIPAddress.walk adapterInfo next with
    | some ip => ip
    | none => "unknown"
  | none => "unknown"

/-- One uppercase hexadecimal digit. -/
def hexDigitUpper (d : Nat) : Char :=
  if d < 10 then Char.ofNat (48 + d) else Char.ofNat (55 + d)

/-- The uppercase hexadecimal digits of `n`, most significant first, in front of
`acc` (`fuel` bounds the number of digits). -/
def hexUpperAux : Nat → Nat → List Char → List Char
  | 0, _, acc => acc
  | fuel + 1, n, acc =>
    if n / 16 = 0 then hexDigitUpper (n % 16) :: acc
    else hexUpperAux fuel (n / 16) (hexDigitUpper (n % 16) :: acc)

/-- The conversion `%X`. -/
def hexUpper (n : Nat) : List Char := hexUpperAux (n + 1) n []

/-- The conversion `%02X`: `%X` padded with zeros on the left to two characters. -/
def fmt02X (n : Nat) : List Char :=
  List.replicate (2 - (hexUpper n).length) '0' ++ hexUpper n

/-- The byte `Address[i]`. -/
def addressByte (a : IP_ADAPTER_INFO) (i : Nat) : Nat := a.Address.getD i 0 % 256

/-- The text `sprintf_s` writes for `"%02X:%02X:%02X:%02X:%02X:%02X"`. -/
def formatMAC (a : IP_ADAPTER_INFO) : List Char :=
  fmt02X (addressByte a 0) ++ ':' :: fmt02X (addressByte a 1) ++ ':' ::
  fmt02X (addressByte a 2) ++ ':' :: fmt02X (addressByte a 3) ++ ':' ::
  fmt02X (addressByte a 4) ++ ':' :: fmt02X (addressByte a 5)

/-- The loop of `GetMACAddress`. -/
def GetMACAddress.walk : IP_ADAPTER_INFO → List IP_ADAPTER_INFO → Option String
  | pAdapterInfo, [] =>
    if isEthernetOrWifi pAdapterInfo then
      some (cString (writeBuffer (List.replicate 18 NUL) (formatMAC pAdapterInfo ++ [NUL])))
    else none
  | pAdapterInfo, p :: next =>
    if isEthernetOrWifi pAdapterInfo then
      some (cString (writeBuffer (List.replicate 18 NUL) (formatMAC pAdapterInfo ++ [NUL])))
    else GetMACAddress.walk p next

/-- The function `GetMACAddress`; the argument is the outcome of its own `GetAdaptersInfo` call. -/
def GetMACAddress (adapters : Option (IP_ADAPTER_INFO × List IP_ADAPTER_INFO)) : String :=
  match adapters with
  | some (adapterInfo, next) =>
    match GetMACAddress.walk adapterInfo next with
    | some mac => mac
    | none => "unknown"
  | none => "unknown"

/-- The function `GetNetworkInfo`; the arguments are the outcomes of the two `GetAdaptersInfo`
calls, the one in `GetIPAddress` and the one in `GetMACAddress`. -/
def GetNetworkInfo (adaptersIP adaptersMAC : Option (IP_ADAPTER_INFO × List IP_ADAPTER_INFO)) :
    EncodableMap :=
  let networkInfo : EncodableMap := []
  let ipAddress := GetIPAddress adaptersIP
  let macAddress := GetMACAddress adaptersMAC
  let networkInfo := networkInfo.set "connectionType" (.string "ethernet")
  let networkInfo := networkInfo.set "networkSpeed" (.string "Unknown")
  let networkInfo := networkInfo.set "isConnected" (.bool (!ipAddress.isEmpty))
  let networkInfo := networkInfo.set "ipAddress" (.string ipAddress)
  let networkInfo := networkInfo.set "macAddress" (.string macAddress)
  networkInfo

/-! ## Processor -/

/-- Modelled from the spec: the constant `PROCESSOR_ARCHITECTURE_AMD64` of the Windows
SDK header `winnt.h`, which is not part of the repository; 9 is the code of the
x64 architecture in the fixed mapping. -/
def PROCESSOR_ARCHITECTURE_AMD64 : Nat := 9
/-- Modelled from the spec: the constant `PROCESSOR_ARCHITECTURE_ARM` of the Windows
SDK header `winnt.h`, which is not part of the repository; 5 is the code of the
ARM architecture in the fixed mapping. -/
def PROCESSOR_ARCHITECTURE_ARM : Nat := 5
/-- Modelled from the spec: the constant `PROCESSOR_ARCHITECTURE_ARM64` of the Windows
SDK header `winnt.h`, which is not part of the repository; 12 is the code of the
ARM64 architecture in the fixed mapping. -/
def PROCESSOR_ARCHITECTURE_ARM64 : Nat := 12
/-- Modelled from the spec: the constant `PROCESSOR_ARCHITECTURE_IA64` of the Windows
SDK header `winnt.h`, which is not part of the repository; 6 is the code of the
Itanium architecture in the fixed mapping. -/
def PROCESSOR_ARCHITECTURE_IA64 : Nat := 6
/-- Modelled from the spec: the constant `PROCESSOR_ARCHITECTURE_INTEL` of the Windows
SDK header `winnt.h`, which is not part of the repository; 0 is the code of the
x86 architecture in the fixed mapping. -/
def PROCESSOR_ARCHITECTURE_INTEL : Nat := 0

/-- The fields of `SYSTEM_INFO` that are read: a `WORD` and a `DWORD`. -/
structure SYSTEM_INFO where
  wProcessorArchitecture : Nat
  dwNumberOfProcessors : Nat

/-- The function `GetProcessorArchitecture`; the argument is what `GetSystemInfo` fills in. -/
def GetProcessorArchitecture (si : SYSTEM_INFO) : String :=
  let c := si.wProcessorArchitecture % 2 ^ 16
  if c = PROCESSOR_ARCHITECTURE_AMD64 then "x86_64"
  else if c = PROCESSOR_ARCHITECTURE_ARM then "arm"
  else if c = PROCESSOR_ARCHITECTURE_ARM64 then "arm64"
  else if c = PROCESSOR_ARCHITECTURE_IA64 then "ia64"
  else if c = PROCESSOR_ARCHITECTURE_INTEL then "x86"
  else "unknown"

/-- The function `GetProcessorCoreCount`. -/
def GetProcessorCoreCount (si : SYSTEM_INFO) : Int :=
  toInt32 (si.dwNumberOfProcessors % 2 ^ 32)

/-- Modelled from the spec: the constant `ERROR_SUCCESS` of the Windows SDK header
`winerror.h`, which is not part of the repository; it is the status 0 of a call
that did not fail. -/
def ERROR_SUCCESS : Int := 0

/-- The function `GetProcessorMaxFrequency`; `regOpen` is the status `RegOpenKeyExA` returns,
`regQuery` the status `RegQueryValueExA` returns for "~MHz" and `maxMHz` the
`DWORD` it leaves in the variable of that name. -/
def GetProcessorMaxFrequency (regOpen regQuery : Int) (maxMHz : Nat) : Int :=
  if regOpen = ERROR_SUCCESS then
    if regQuery = ERROR_SUCCESS then toInt32 (maxMHz % 2 ^ 32)
    else 0
  else 0

/-- The function `GetProcessorName`; `regOpen` is the status `RegOpenKeyExA` returns,
`regQuery` the status `RegQueryValueExA` returns for "ProcessorNameString" and
`data` the bytes it writes at the start of the zeroed `char[256]`. -/
def GetProcessorName (regOpen regQuery : Int) (data : List Char) : String :=
  let processorName := List.replicate 256 NUL
  if regOpen = ERROR_SUCCESS then
    if regQuery = ERROR_SUCCESS then cString (writeBuffer processorName data)
    else "Unknown Processor"
  else "Unknown Processor"

/-- The condition `cpuInfo[i] & (1 << k)` on a 32-bit register. -/
def bitTest (reg k : Nat) : Bool := (reg % 2 ^ 32) &&& (1 <<< k) != 0

/-- The function `GetProcessorFeatures`; `cpuid leaf i` is `cpuInfo[i]` after
`__cpuid(cpuInfo, leaf)`, so `cpuid 1 3` is EDX of leaf 1 and `cpuid 7 1` is EBX
of leaf 7. -/
def GetProcessorFeatures (cpuid : Nat → Nat → Nat) : List String :=
  let features : List String := []
  let features := if bitTest (cpuid 1 3) 23 then features ++ ["MMX"] else features
  let features := if bitTest (cpuid 1 3) 25 then features ++ ["SSE"] else features
  let features := if bitTest (cpuid 1 3) 26 then features ++ ["SSE2"] else features
  let features := if bitTest (cpuid 7 1) 5 then features ++ ["AVX2"] else features
  let features := if bitTest (cpuid 7 1) 16 then features ++ ["AVX512F"] else features
  features

/-! ## Double arithmetic -/

/-- The quotient `n / d` rounded to the nearest integer, ties to the even one. -/
def roundHalfEven (n d : Nat) : Nat :=
  if 2 * (n % d) < d then n / d
  else if d < 2 * (n % d) then n / d + 1
  else if n / d % 2 = 0 then n / d else n / d + 1

/-- The position of the leading bit of `n`, by halving (`fuel` bounds the steps). -/
def log2Floor : Nat → Nat → Nat
  | 0, _ => 0
  | fuel + 1, n => if n < 2 then 0 else log2Floor fuel (n / 2) + 1

/-- The position of the leading bit of `n`: the greatest `k` with `2 ^ k ≤ n`. -/
def ilog2 (n : Nat) : Nat := log2Floor n n

/-- The test `2 ^ k ≤ n / d`, on integers. -/
def pow2Le (k : Int) (n d : Nat) : Bool :=
  if 0 ≤ k then decide (d * 2 ^ k.toNat ≤ n) else decide (d ≤ n * 2 ^ (-k).toNat)

/-- The binary exponent of the positive quotient `n / d`: the greatest `k` with
`2 ^ k ≤ n / d`. -/
def binade (n d : Nat) : Int :=
  if pow2Le ((ilog2 n : Int) - (ilog2 d : Int)) n d then (ilog2 n : Int) - (ilog2 d : Int)
  else (ilog2 n : Int) - (ilog2 d : Int) - 1

/-- The `double` nearest to the positive quotient `n / d`, as significand and
exponent `(m, e)` of the value `m * 2 ^ e`: the quotient is scaled into
`[2 ^ 52, 2 ^ 53)` and rounded to an integer, ties to even. -/
def roundPos (n d : Nat) : Nat × Int :=
  if 0 ≤ binade n d - 52 then
    (roundHalfEven n (d * 2 ^ (binade n d - 52).toNat), binade n d - 52)
  else
    (roundHalfEven (n * 2 ^ (-(binade n d - 52)).toNat) d, binade n d - 52)

/-- The quotient of two integer-valued `double`s, `n` over `d`, as a `double`.  The
divisor is positive wherever the plugin divides; for `d = 0` the value 0 stands in
for the infinities and NaN. -/
def divDouble (n : Int) (d : Nat) : ℚ :=
  if n = 0 ∨ d = 0 then 0
  else (Int.sign n : ℚ) * ((roundPos n.natAbs d).1 : ℚ) * (2 : ℚ) ^ (roundPos n.natAbs d).2

/-- The `double` nearest to the integer `n` (a conversion to `double`, or the
rounding of an integer product); it is again an integer.  Every integer of
magnitude below `2 ^ 53` is a `double`. -/
def roundIntToDouble (n : Int) : Int :=
  if n.natAbs < 2 ^ 53 then n
  else Int.sign n *
    ((roundHalfEven n.natAbs (2 ^ (ilog2 n.natAbs - 52)) * 2 ^ (ilog2 n.natAbs - 52) : Nat) : Int)

/-! ## Memory and storage -/

/-- The fields of `MEMORYSTATUSEX` that are read (both are `DWORDLONG`). -/
structure MEMORYSTATUSEX where
  ullTotalPhys : Nat
  ullAvailPhys : Nat

/-- The function `GetTotalPhysicalMemory`; the argument is the outcome of its
`GlobalMemoryStatusEx` call (`none` when it returns FALSE). -/
def GetTotalPhysicalMemory (memStatus : Option MEMORYSTATUSEX) : Int :=
  match memStatus with
  | some memStatus => toInt64 (memStatus.ullTotalPhys % 2 ^ 64)
  | none => 0

/-- The function `GetAvailablePhysicalMemory`; the argument is the outcome of its own
`GlobalMemoryStatusEx` call. -/
def GetAvailablePhysicalMemory (memStatus : Option MEMORYSTATUSEX) : Int :=
  match memStatus with
  | some memStatus => toInt64 (memStatus.ullAvailPhys % 2 ^ 64)
  | none => 0

/-- What `GetDiskFreeSpaceExA` fills in: two `ULARGE_INTEGER`. -/
structure DiskFreeSpace where
  freeBytes : Nat
  totalBytes : Nat

/-- The function `GetTotalStorageSpace`; the argument is the outcome of its
`GetDiskFreeSpaceExA` call (`none` when it returns FALSE). -/
def GetTotalStorageSpace (disk : Option DiskFreeSpace) : Int :=
  match disk with
  | some d => toInt64 (d.totalBytes % 2 ^ 64)
  | none => 0

/-- The function `GetAvailableStorageSpace`; the argument is the outcome of its own
`GetDiskFreeSpaceExA` call. -/
def GetAvailableStorageSpace (disk : Option DiskFreeSpace) : Int :=
  match disk with
  | some d => toInt64 (d.freeBytes % 2 ^ 64)
  | none => 0

/-- The expression stored under "memoryUsagePercentage" (line 127):
`totalMem > 0 ? ((totalMem - availMem) * 100.0 / totalMem) : 0.0`.  The
subtraction is an `int64_t` one; its result is converted to `double`, multiplied
by 100.0 and divided by `totalMem` converted to `double`, and each of these steps
rounds to the nearest `double`. -/
def memoryUsagePercentage (totalMem availMem : Int) : ℚ :=
  if totalMem > 0 then
    divDouble (roundIntToDouble (roundIntToDouble (toInt64 (totalMem - availMem)) * 100))
      (roundIntToDouble totalMem).toNat
  else 0

/-! ## Display -/

/-- The function `GetScreenWidth`; the argument is `GetSystemMetrics(SM_CXSCREEN)`. -/
def GetScreenWidth (cxScreen : Int) : Int := toInt32 cxScreen

/-- The function `GetScreenHeight`; the argument is `GetSystemMetrics(SM_CYSCREEN)`. -/
def GetScreenHeight (cyScreen : Int) : Int := toInt32 cyScreen

/-- The function `GetPixelDensity`; the argument is `GetDeviceCaps(hdc, LOGPIXELSX)`.
The quotient `dpi / 96.0` is a `double` division. -/
def GetPixelDensity (dpi : Int) : ℚ := divDouble (toInt32 dpi) 96

/-- The function `GetRefreshRate`; the argument is the outcome of `EnumDisplaySettingsA`: `none`
when it returns FALSE, otherwise the `DWORD` field `dmDisplayFrequency`, whose
conversion to `double` is exact (it is below `2 ^ 32`). -/
def GetRefreshRate (dm : Option Nat) : ℚ :=
  match dm with
  | some dmDisplayFrequency => ((dmDisplayFrequency % 2 ^ 32 : Nat) : ℚ)
  | none => 60

/-- The expression stored under "orientation" (line 142). -/
def orientation (width height : Int) : String :=
  if width > height then "landscape" else "portrait"

/-! ## Device record and dispatch -/

/-- The fields of `RTL_OSVERSIONINFOEXW` that are read (all are `ULONG`). -/
structure RTL_OSVERSIONINFOEXW where
  dwMajorVersion : Nat
  dwMinorVersion : Nat
  dwBuildNumber : Nat

/-- The answers of the operating system to the calls of the plugin, one field
per call site. -/
structure OS where
  -- Contents of the local `char computerName[16]` before `GetComputerNameA`; the array has no initialiser.
  computerName : List Char
  -- Outcome of `GetComputerNameA`: `none` when it returns FALSE, otherwise the characters it writes at the start of the buffer.
  GetComputerNameA : Option (List Char)
  -- Whether `GetModuleHandleW(L"ntdll.dll")` is non-null.
  hMod : Bool
  -- Whether `GetProcAddress(hMod, "RtlGetVersion")` is non-null.
  fxPtr : Bool
  -- Status returned by `RtlGetVersion`.
  RtlGetVersion : Int
  -- What `RtlGetVersion` fills in.
  osvi : RTL_OSVERSIONINFOEXW
  -- `GetSystemInfo` in `GetProcessorArchitecture`.
  siArchitecture : SYSTEM_INFO
  -- `GetSystemInfo` in `GetProcessorCoreCount`.
  siCoreCount : SYSTEM_INFO
  -- `RegOpenKeyExA` in `GetProcessorMaxFrequency`.
  regOpenMHz : Int
  -- `RegQueryValueExA` in `GetProcessorMaxFrequency`.
  regQueryMHz : Int
  -- The value left in `maxMHz`.
  maxMHz : Nat
  -- `RegOpenKeyExA` in `GetProcessorName`.
  regOpenName : Int
  -- `RegQueryValueExA` in `GetProcessorName`.
  regQueryName : Int
  -- The bytes written to `processorName`.
  processorNameData : List Char
  -- The instruction `__cpuid`: leaf and index of `cpuInfo` to register value.
  cpuid : Nat → Nat → Nat
  -- `GlobalMemoryStatusEx` in `GetTotalPhysicalMemory`.
  memStatusTotal : Option MEMORYSTATUSEX
  -- `GlobalMemoryStatusEx` in `GetAvailablePhysicalMemory`.
  memStatusAvail : Option MEMORYSTATUSEX
  -- `GetDiskFreeSpaceExA` in `GetTotalStorageSpace`.
  diskTotal : Option DiskFreeSpace
  -- `GetDiskFreeSpaceExA` in `GetAvailableStorageSpace`.
  diskAvail : Option DiskFreeSpace
  -- `GetSystemMetrics(SM_CXSCREEN)`.
  cxScreen : Int
  -- `GetSystemMetrics(SM_CYSCREEN)`.
  cyScreen : Int
  -- `GetDeviceCaps(hdc, LOGPIXELSX)`.
  dpi : Int
  -- `EnumDisplaySettingsA`.
  displaySettings : Option Nat
  -- `GetSystemPowerStatus`.
  powerStatus : Option SYSTEM_POWER_STATUS
  -- `GetAdaptersInfo` in `GetIPAddress`.
  adaptersIP : Option (IP_ADAPTER_INFO × List IP_ADAPTER_INFO)
  -- `GetAdaptersInfo` in `GetMACAddress`.
  adaptersMAC : Option (IP_ADAPTER_INFO × List IP_ADAPTER_INFO)

/-- The function `std::to_string` of an unsigned 32-bit value. -/
def to_string (n : Nat) : String := toString (n % 2 ^ 32)

/-- The "systemVersion" and "buildNumber" entries (lines 68-92). -/
def setVersion (os : OS) (deviceInfo : EncodableMap) : EncodableMap :=
  if os.hMod then
    if os.fxPtr then
      if os.RtlGetVersion = 0 then
        let version := to_string os.osvi.dwMajorVersion ++ "." ++ to_string os.osvi.dwMinorVersion
        let deviceInfo := deviceInfo.set "systemVersion" (.string version)
        deviceInfo.set "buildNumber" (.string (to_string os.osvi.dwBuildNumber))
      else
        let deviceInfo := deviceInfo.set "systemVersion" (.string "10.0")
        deviceInfo.set "buildNumber" (.string "0")
    else
      let deviceInfo := deviceInfo.set "systemVersion" (.string "10.0")
      deviceInfo.set "buildNumber" (.string "0")
  else
    let deviceInfo := deviceInfo.set "systemVersion" (.string "10.0")
    deviceInfo.set "buildNumber" (.string "0")

/-- The `processorInfo` map (lines 100-111). -/
def processorInfo (os : OS) : EncodableMap :=
  let processorInfo : EncodableMap := []
  let processorInfo := processorInfo.set "architecture"
    (.string (GetProcessorArchitecture os.siArchitecture))
  let processorInfo := processorInfo.set "coreCount" (.int32 (GetProcessorCoreCount os.siCoreCount))
  let processorInfo := processorInfo.set "maxFrequency"
    (.int32 (GetProcessorMaxFrequency os.regOpenMHz os.regQueryMHz os.maxMHz))
  let processorInfo := processorInfo.set "processorName"
    (.string (GetProcessorName os.regOpenName os.regQueryName os.processorNameData))
  let features : EncodableList := (GetProcessorFeatures os.cpuid).map EncodableValue.string
  processorInfo.set "features" (.list features)

/-- The `memoryInfo` map (lines 114-127). -/
def memoryInfo (os : OS) : EncodableMap :=
  let memoryInfo : EncodableMap := []
  let totalMem := GetTotalPhysicalMemory os.memStatusTotal
  let availMem := GetAvailablePhysicalMemory os.memStatusAvail
  let totalStorage := GetTotalStorageSpace os.diskTotal
  let availStorage := GetAvailableStorageSpace os.diskAvail
  let memoryInfo := memoryInfo.set "totalPhysicalMemory" (.int64 totalMem)
  let memoryInfo := memoryInfo.set "availablePhysicalMemory" (.int64 availMem)
  let memoryInfo := memoryInfo.set "totalStorageSpace" (.int64 totalStorage)
  let memoryInfo := memoryInfo.set "availableStorageSpace" (.int64 availStorage)
  let memoryInfo := memoryInfo.set "usedStorageSpace" (.int64 (toInt64 (totalStorage - availStorage)))
  memoryInfo.set "memoryUsagePercentage" (.double (memoryUsagePercentage totalMem availMem))

/-- The `displayInfo` map (lines 130-143). -/
def displayInfo (os : OS) : EncodableMap :=
  let displayInfo : EncodableMap := []
  let width := GetScreenWidth os.cxScreen
  let height := GetScreenHeight os.cyScreen
  let density := GetPixelDensity os.dpi
  let refreshRate := GetRefreshRate os.displaySettings
  let displayInfo := displayInfo.set "screenWidth" (.int32 width)
  let displayInfo := displayInfo.set "screenHeight" (.int32 height)
  let displayInfo := displayInfo.set "pixelDensity" (.double density)
  let displayInfo := displayInfo.set "refreshRate" (.double refreshRate)
  let displayInfo := displayInfo.set "screenSizeInches" (.double 24)
  let displayInfo := displayInfo.set "orientation" (.string (orientation width height))
  displayInfo.set "isHdr" (.bool false)

/-- The `securityInfo` map (lines 146-152). -/
def securityInfo : EncodableMap :=
  let securityInfo : EncodableMap := []
  let securityInfo := securityInfo.set "isDeviceSecure" (.bool true)
  let securityInfo := securityInfo.set "hasFingerprint" (.bool false)
  let securityInfo := securityInfo.set "hasFaceUnlock" (.bool false)
  let securityInfo := securityInfo.set "screenLockEnabled" (.bool true)
  securityInfo.set "encryptionStatus" (.string "encrypted")

/-- The buffer `computerName` after the call of `GetComputerNameA`. -/
def computerNameAfter (os : OS) : List Char :=
  match os.GetComputerNameA with
  | some data => writeBuffer os.computerName data
  | none => os.computerName

/-- The function `GetDeviceInfo`. -/
def GetDeviceInfo (os : OS) : EncodableMap :=
  let deviceInfo : EncodableMap := []
  let deviceInfo := deviceInfo.set "deviceName" (.string (cString (computerNameAfter os)))
  let deviceInfo := setVersion os deviceInfo
  let deviceInfo := deviceInfo.set "manufacturer" (.string "Microsoft")
  let deviceInfo := deviceInfo.set "model" (.string "Windows PC")
  let deviceInfo := deviceInfo.set "brand" (.string "Microsoft")
  let deviceInfo := deviceInfo.set "operatingSystem" (.string "Windows")
  let deviceInfo := deviceInfo.set "kernelVersion" (.string "NT")
  let deviceInfo := deviceInfo.set "processorInfo" (.map (processorInfo os))
  let deviceInfo := deviceInfo.set "memoryInfo" (.map (memoryInfo os))
  let deviceInfo := deviceInfo.set "displayInfo" (.map (displayInfo os))
  let deviceInfo := deviceInfo.set "securityInfo" (.map securityInfo)
  deviceInfo

/-- The function `HandleMethodCall`: what `result` is told for the method name `method_name`. -/
def HandleMethodCall (os : OS) (method_name : String) : MethodResult :=
  if method_name = "getDeviceInfo" then
    .Success (.map (GetDeviceInfo os))
  else if method_name = "getBatteryInfo" then
    .Success (.map (GetBatteryInfo os.powerStatus))
  else if method_name = "getSensorInfo" then
    .Success (.map GetSensorInfo)
  else if method_name = "getNetworkInfo" then
    .Success (.map (GetNetworkInfo os.adaptersIP os.adaptersMAC))
  else
    .NotImplemented

/-- A desktop PC on which every call succeeds: one Ethernet adapter, no battery
reading of interest, a 1920 x 1080 screen. -/
def exampleOS : OS where
  computerName := List.replicate 16 NUL
  GetComputerNameA := some ("DESKTOP".toList ++ [NUL])
  hMod := true
  fxPtr := true
  RtlGetVersion := 0
  osvi := ⟨10, 0, 19045⟩
  siArchitecture := ⟨9, 8⟩
  siCoreCount := ⟨9, 8⟩
  regOpenMHz := 0
  regQueryMHz := 0
  maxMHz := 3600
  regOpenName := 0
  regQueryName := 0
  processorNameData := "Example CPU".toList ++ [NUL]
  cpuid := fun _ _ => 0
  memStatusTotal := some ⟨8589934592, 4294967296⟩
  memStatusAvail := some ⟨8589934592, 4294967296⟩
  diskTotal := some ⟨100, 1000⟩
  diskAvail := some ⟨100, 1000⟩
  cxScreen := 1920
  cyScreen := 1080
  dpi := 96
  displaySettings := some 60
  powerStatus := some ⟨1, 100⟩
  adaptersIP := some (⟨6, "10.0.0.2".toList ++ [NUL], [0, 26, 43, 60, 77, 94, 0, 0]⟩, [])
  adaptersMAC := some (⟨6, "10.0.0.2".toList ++ [NUL], [0, 26, 43, 60, 77, 94, 0, 0]⟩, [])

/-! ## Statements of the specification -/

/-- The table of the specification for the feature tags: the tags in check order,
each with the bit that keeps it (EDX of leaf 1 and EBX of leaf 7). -/
def featureTable (edx ebx : Nat) : List (String × Bool) :=
  [("MMX", edx.testBit 23), ("SSE", edx.testBit 25), ("SSE2", edx.testBit 26),
   ("AVX2", ebx.testBit 5), ("AVX512F", ebx.testBit 16)]

/-- The feature list as the specification words it: the tags of the table whose
bit is set, in table order. -/
def featuresSpec (edx ebx : Nat) : List String :=
  ((featureTable edx ebx).filter (fun t => t.2)).map (fun t => t.1)

/-- A byte as two uppercase hexadecimal digits, as the specification words the
groups of a MAC address. -/
def twoHexUpper (b : Nat) : List Char := [hexDigitUpper (b / 16), hexDigitUpper (b % 16)]

/-- The MAC address text as the specification words it: the bytes as two-digit
uppercase hexadecimal groups separated by a colon. -/
def macSpec (bytes : List Nat) : String :=
  String.mk (List.intercalate [':'] (bytes.map twoHexUpper))

/-! ## Lemmas on the data model -/

theorem EncodableMap.get?_set_self (m : EncodableMap) (k : String) (v : EncodableValue) :
    (m.set k v).get? k = some v := by
  induction m with
  | nil => simp [EncodableMap.set, EncodableMap.get?]
  | cons e m ih =>
    obtain ⟨k', v'⟩ := e
    by_cases h : k' = k
    · simp [EncodableMap.set, EncodableMap.get?, h]
    · simp [EncodableMap.set, EncodableMap.get?, h, ih]

theorem EncodableMap.get?_set_of_ne (m : EncodableMap) (k j : String) (v : EncodableValue)
    (hkj : k ≠ j) : (m.set k v).get? j = m.get? j := by
  induction m with
  | nil => simp [EncodableMap.set, EncodableMap.get?, hkj]
  | cons e m ih =>
    obtain ⟨k', v'⟩ := e
    by_cases h : k' = k
    · subst h
      simp [EncodableMap.set, EncodableMap.get?, hkj]
    · by_cases h2 : k' = j
      · subst h2
        simp [EncodableMap.set, EncodableMap.get?, h]
      · simp [EncodableMap.set, EncodableMap.get?, h, h2, ih]

theorem toInt64_of_range (n : Int) (h1 : -2 ^ 63 ≤ n) (h2 : n < 2 ^ 63) : toInt64 n = n := by
  unfold toInt64 toSigned
  by_cases hn : 0 ≤ n
  · have : n % 2 ^ 64 = n := Int.emod_eq_of_lt hn (by omega)
    rw [this]
    have : n < 2 ^ (64 - 1) := by norm_num; omega
    rw [if_pos this]
  · have : n % 2 ^ 64 = n + 2 ^ 64 := by
      rw [← Int.add_emod_self]
      apply Int.emod_eq_of_lt <;> omega
    rw [this]
    have : ¬ (n + 2 ^ 64 < 2 ^ (64 - 1)) := by norm_num; omega
    rw [if_neg this]; ring

theorem toInt64_range (n : Int) : -2 ^ 63 ≤ toInt64 n ∧ toInt64 n < 2 ^ 63 := by
  unfold toInt64 toSigned
  have h1 : 0 ≤ n % 2 ^ 64 := Int.emod_nonneg _ (by norm_num)
  have h2 : n % 2 ^ 64 < 2 ^ 64 := Int.emod_lt_of_pos _ (by norm_num)
  split <;> rename_i h <;> norm_num at h ⊢ <;> omega

theorem toInt32_of_range (n : Int) (h1 : -2 ^ 31 ≤ n) (h2 : n < 2 ^ 31) : toInt32 n = n := by
  unfold toInt32 toSigned
  by_cases hn : 0 ≤ n
  · have : n % 2 ^ 32 = n := Int.emod_eq_of_lt hn (by omega)
    rw [this]
    have : n < 2 ^ (32 - 1) := by norm_num; omega
    rw [if_pos this]
  · have : n % 2 ^ 32 = n + 2 ^ 32 := by
      rw [← Int.add_emod_self]
      apply Int.emod_eq_of_lt <;> omega
    rw [this]
    have : ¬ (n + 2 ^ 32 < 2 ^ (32 - 1)) := by norm_num; omega
    rw [if_neg this]; ring

theorem toInt32_range (n : Int) : -2 ^ 31 ≤ toInt32 n ∧ toInt32 n < 2 ^ 31 := by
  unfold toInt32 toSigned
  have h1 : 0 ≤ n % 2 ^ 32 := Int.emod_nonneg _ (by norm_num)
  have h2 : n % 2 ^ 32 < 2 ^ 32 := Int.emod_lt_of_pos _ (by norm_num)
  split <;> rename_i h <;> norm_num at h ⊢ <;> omega

theorem cString_writeBuffer_zeros (k : Nat) (data : List Char) :
    cString (writeBuffer (List.replicate k NUL) data) = cString data := by
  unfold cString writeBuffer
  congr 1
  rw [List.takeWhile_append]
  split
  · rename_i h
    have h2 : List.takeWhile (fun c => c != NUL) data = data := by
      apply List.Sublist.eq_of_length (List.takeWhile_sublist _) h
    rw [h2, List.drop_replicate]
    cases hk : k - data.length with
    | zero => simp
    | succ j => simp [List.replicate_succ, List.takeWhile]
  · rfl

theorem bitTest_eq_testBit (reg k : Nat) : bitTest reg k = (reg % 2 ^ 32).testBit k := by
  unfold bitTest
  rw [Nat.one_shiftLeft, Nat.and_two_pow]
  cases (reg % 2 ^ 32).testBit k <;> simp

set_option maxRecDepth 100000 in
theorem fmt02X_byte :
    ∀ n, n < 256 → fmt02X n = [hexDigitUpper (n / 16), hexDigitUpper (n % 16)] := by
  decide

theorem hexDigitUpper_table :
    ∀ d, d < 16 → "0123456789ABCDEF".toList.get? d = some (hexDigitUpper d) := by
  decide

theorem hexDigitUpper_ne_NUL : ∀ d, d < 16 → (hexDigitUpper d != NUL) = true := by
  decide

theorem GetIPAddress_walk_eq_find (first : IP_ADAPTER_INFO) (rest : List IP_ADAPTER_INFO) :
    GetIPAddress.walk first rest =
      ((first :: rest).find? isEthernetOrWifi).map (fun a => cString a.IpAddressString) := by
  induction rest generalizing first with
  | nil => cases h : isEthernetOrWifi first <;> simp [GetIPAddress.walk, List.find?, h]
  | cons p next ih =>
    cases h : isEthernetOrWifi first
    · simp only [GetIPAddress.walk, h, Bool.false_eq_true, if_false, ih, List.find?]
    · simp [GetIPAddress.walk, List.find?, h]

theorem cString_append_NUL (data : List Char) : cString (data ++ [NUL]) = cString data := by
  unfold cString
  congr 1
  rw [List.takeWhile_append]
  split
  · rename_i h
    have h2 : List.takeWhile (fun c => c != NUL) data = data :=
      List.Sublist.eq_of_length (List.takeWhile_sublist _) h
    simp [h2, List.takeWhile]
  · rfl

theorem formatMAC_eq (a : IP_ADAPTER_INFO) :
    formatMAC a =
      [hexDigitUpper (addressByte a 0 / 16), hexDigitUpper (addressByte a 0 % 16), ':',
       hexDigitUpper (addressByte a 1 / 16), hexDigitUpper (addressByte a 1 % 16), ':',
       hexDigitUpper (addressByte a 2 / 16), hexDigitUpper (addressByte a 2 % 16), ':',
       hexDigitUpper (addressByte a 3 / 16), hexDigitUpper (addressByte a 3 % 16), ':',
       hexDigitUpper (addressByte a 4 / 16), hexDigitUpper (addressByte a 4 % 16), ':',
       hexDigitUpper (addressByte a 5 / 16), hexDigitUpper (addressByte a 5 % 16)] := by
  have hb : ∀ i, addressByte a i < 256 := fun i => Nat.mod_lt _ (by norm_num)
  simp [formatMAC, fmt02X_byte _ (hb _)]

theorem cString_formatMAC (a : IP_ADAPTER_INFO) :
    cString (formatMAC a) = String.mk (formatMAC a) := by
  have hb : ∀ i, addressByte a i < 256 := fun i => Nat.mod_lt _ (by norm_num)
  have hd : ∀ i, (hexDigitUpper (addressByte a i / 16) != NUL) = true := fun i =>
    hexDigitUpper_ne_NUL _ (by have := hb i; omega)
  have hm : ∀ i, (hexDigitUpper (addressByte a i % 16) != NUL) = true := fun i =>
    hexDigitUpper_ne_NUL _ (Nat.mod_lt _ (by norm_num))
  have hc : (':' != NUL) = true := by decide
  unfold cString
  congr 1
  rw [formatMAC_eq]
  simp only [List.takeWhile, hd, hm, hc]

theorem macBuffer_eq (a : IP_ADAPTER_INFO) :
    cString (writeBuffer (List.replicate 18 NUL) (formatMAC a ++ [NUL])) =
      String.mk (formatMAC a) := by
  rw [cString_writeBuffer_zeros, cString_append_NUL, cString_formatMAC]

theorem GetMACAddress_walk_eq_find (first : IP_ADAPTER_INFO) (rest : List IP_ADAPTER_INFO) :
    GetMACAddress.walk first rest =
      ((first :: rest).find? isEthernetOrWifi).map (fun a => String.mk (formatMAC a)) := by
  induction rest generalizing first with
  | nil =>
    cases h : isEthernetOrWifi first
    · simp [GetMACAddress.walk, List.find?, h]
    · simp only [GetMACAddress.walk, h, if_true, macBuffer_eq, List.find?, Option.map]
  | cons p next ih =>
    cases h : isEthernetOrWifi first
    · simp only [GetMACAddress.walk, h, Bool.false_eq_true, if_false, ih, List.find?]
    · simp only [GetMACAddress.walk, h, if_true, macBuffer_eq, List.find?, Option.map]

theorem GetDeviceInfo_get?_deviceName (os : OS) :
    (GetDeviceInfo os).get? "deviceName" = some (.string (cString (computerNameAfter os))) := by
  unfold GetDeviceInfo setVersion
  split_ifs <;>
    simp [EncodableMap.get?_set_of_ne, EncodableMap.get?_set_self]

theorem GetDeviceInfo_get?_other (os : OS) :
    (GetDeviceInfo os).get? "availableSensors" = none ∧
    (GetDeviceInfo os).get? "connectionType" = none := by
  unfold GetDeviceInfo setVersion
  split_ifs <;>
    simp [EncodableMap.get?_set_of_ne, EncodableMap.get?]

theorem GetBatteryInfo_get?_other (r : Option SYSTEM_POWER_STATUS) :
    (GetBatteryInfo r).get? "deviceName" = none ∧
    (GetBatteryInfo r).get? "availableSensors" = none ∧
    (GetBatteryInfo r).get? "connectionType" = none := by
  cases r <;> simp [GetBatteryInfo, EncodableMap.get?_set_of_ne, EncodableMap.get?]

theorem GetSensorInfo_get? :
    GetSensorInfo.get? "deviceName" = none ∧
    GetSensorInfo.get? "availableSensors" = some (.list [.string "accelerometer"]) ∧
    GetSensorInfo.get? "connectionType" = none := ⟨rfl, rfl, rfl⟩

theorem GetNetworkInfo_get?_other (a b : Option (IP_ADAPTER_INFO × List IP_ADAPTER_INFO)) :
    (GetNetworkInfo a b).get? "deviceName" = none ∧
    (GetNetworkInfo a b).get? "availableSensors" = none ∧
    (GetNetworkInfo a b).get? "connectionType" = some (.string "ethernet") := by
  simp [GetNetworkInfo, EncodableMap.get?_set_of_ne, EncodableMap.get?_set_self, EncodableMap.get?]

theorem GetDeviceInfo_ne_GetBatteryInfo (os : OS) (r : Option SYSTEM_POWER_STATUS) :
    GetDeviceInfo os ≠ GetBatteryInfo r := fun h => by
  have := congrArg (fun m => EncodableMap.get? m "deviceName") h
  simp [GetDeviceInfo_get?_deviceName, GetBatteryInfo_get?_other] at this

theorem GetDeviceInfo_ne_GetSensorInfo (os : OS) : GetDeviceInfo os ≠ GetSensorInfo := fun h => by
  have := congrArg (fun m => EncodableMap.get? m "deviceName") h
  simp [GetDeviceInfo_get?_deviceName, GetSensorInfo_get?] at this

theorem GetDeviceInfo_ne_GetNetworkInfo (os : OS)
    (a b : Option (IP_ADAPTER_INFO × List IP_ADAPTER_INFO)) :
    GetDeviceInfo os ≠ GetNetworkInfo a b := fun h => by
  have := congrArg (fun m => EncodableMap.get? m "deviceName") h
  simp [GetDeviceInfo_get?_deviceName, GetNetworkInfo_get?_other] at this

theorem GetBatteryInfo_ne_GetSensorInfo (r : Option SYSTEM_POWER_STATUS) :
    GetBatteryInfo r ≠ GetSensorInfo := fun h => by
  have := congrArg (fun m => EncodableMap.get? m "availableSensors") h
  simp [GetBatteryInfo_get?_other, GetSensorInfo_get?] at this

theorem GetBatteryInfo_ne_GetNetworkInfo (r : Option SYSTEM_POWER_STATUS)
    (a b : Option (IP_ADAPTER_INFO × List IP_ADAPTER_INFO)) :
    GetBatteryInfo r ≠ GetNetworkInfo a b := fun h => by
  have := congrArg (fun m => EncodableMap.get? m "connectionType") h
  simp [GetBatteryInfo_get?_other, GetNetworkInfo_get?_other] at this

theorem GetSensorInfo_ne_GetNetworkInfo
    (a b : Option (IP_ADAPTER_INFO × List IP_ADAPTER_INFO)) :
    GetSensorInfo ≠ GetNetworkInfo a b := fun h => by
  have := congrArg (fun m => EncodableMap.get? m "connectionType") h
  simp [GetSensorInfo_get?, GetNetworkInfo_get?_other] at this

theorem GetProcessorFeatures_eq (cpuid : Nat → Nat → Nat) :
    GetProcessorFeatures cpuid = featuresSpec (cpuid 1 3 % 2 ^ 32) (cpuid 7 1 % 2 ^ 32) := by
  simp only [GetProcessorFeatures, bitTest_eq_testBit, featuresSpec, featureTable]
  cases (cpuid 1 3 % 2 ^ 32).testBit 23 <;> cases (cpuid 1 3 % 2 ^ 32).testBit 25 <;>
  cases (cpuid 1 3 % 2 ^ 32).testBit 26 <;> cases (cpuid 7 1 % 2 ^ 32).testBit 5 <;>
  cases (cpuid 7 1 % 2 ^ 32).testBit 16 <;> rfl

theorem featuresSpec_props : ∀ b1 b2 b3 b4 b5 : Bool,
    let l := (([("MMX", b1), ("SSE", b2), ("SSE2", b3), ("AVX2", b4), ("AVX512F", b5)].filter
      (fun t => t.2)).map (fun t => t.1))
    l.Sublist ["MMX", "SSE", "SSE2", "AVX2", "AVX512F"] ∧ l.Nodup ∧
    ("MMX" ∈ l ↔ b1 = true) ∧ ("SSE" ∈ l ↔ b2 = true) ∧ ("SSE2" ∈ l ↔ b3 = true) ∧
    ("AVX2" ∈ l ↔ b4 = true) ∧ ("AVX512F" ∈ l ↔ b5 = true) := by
  decide

theorem find?_eq_none_of_no_match (l : List IP_ADAPTER_INFO)
    (h : ∀ x ∈ l, isEthernetOrWifi x = false) : l.find? isEthernetOrWifi = none := by
  rw [List.find?_eq_none]
  intro x hx
  simp [h x hx]

/-- Without an adapter of type 6 or 71 both address getters return "unknown" and
`GetNetworkInfo` stores `true` under "isConnected". -/
theorem GetNetworkInfo_of_no_match (first : IP_ADAPTER_INFO) (rest : List IP_ADAPTER_INFO)
    (h : ∀ x ∈ first :: rest, isEthernetOrWifi x = false) :
    GetIPAddress (some (first, rest)) = "unknown" ∧
    GetMACAddress (some (first, rest)) = "unknown" ∧
    (GetNetworkInfo (some (first, rest)) (some (first, rest))).get? "isConnected"
      = some (.bool true) := by
  have hf := find?_eq_none_of_no_match _ h
  have hip : GetIPAddress (some (first, rest)) = "unknown" := by
    simp only [GetIPAddress, GetIPAddress_walk_eq_find, hf, Option.map]
  have hmac : GetMACAddress (some (first, rest)) = "unknown" := by
    simp only [GetMACAddress, GetMACAddress_walk_eq_find, hf, Option.map]
  refine ⟨hip, hmac, ?_⟩
  simp only [GetNetworkInfo, hip]
  rfl

/-! ## Lemmas on double arithmetic -/

theorem log2Floor_spec (fuel : Nat) : ∀ n, 0 < n → n ≤ fuel →
    2 ^ log2Floor fuel n ≤ n ∧ n < 2 ^ (log2Floor fuel n + 1) := by
  induction fuel with
  | zero => intro n h1 h2; omega
  | succ fuel ih =>
    intro n h1 h2
    unfold log2Floor
    by_cases h : n < 2
    · rw [if_pos h]
      constructor <;> simp <;> omega
    · rw [if_neg h]
      have := ih (n / 2) (by omega) (by omega)
      obtain ⟨a, b⟩ := this
      constructor
      · rw [pow_succ]; omega
      · rw [pow_succ]; omega

theorem ilog2_spec (n : Nat) (h : 0 < n) : 2 ^ ilog2 n ≤ n ∧ n < 2 ^ (ilog2 n + 1) :=
  log2Floor_spec n n h (le_refl _)

theorem pow2Le_iff (k : Int) (n d : Nat) (hd : 0 < d) :
    pow2Le k n d = true ↔ (2 : ℚ) ^ k ≤ (n : ℚ) / (d : ℚ) := by
  have hdq : (0 : ℚ) < (d : ℚ) := by exact_mod_cast hd
  unfold pow2Le
  by_cases hk : 0 ≤ k
  · rw [if_pos hk]
    obtain ⟨j, rfl⟩ := Int.eq_ofNat_of_zero_le hk
    simp only [Int.toNat_ofNat, decide_eq_true_eq, zpow_natCast]
    rw [le_div_iff₀ hdq]
    constructor
    · intro h
      have : ((d * 2 ^ j : Nat) : ℚ) ≤ (n : ℚ) := by exact_mod_cast h
      push_cast at this
      linarith
    · intro h
      have : ((d * 2 ^ j : Nat) : ℚ) ≤ (n : ℚ) := by push_cast; linarith
      exact_mod_cast this
  · rw [if_neg hk]
    obtain ⟨j, hj⟩ := Int.eq_ofNat_of_zero_le (show 0 ≤ -k by omega)
    have hk2 : k = -(j : Int) := by omega
    subst hk2
    simp only [neg_neg, Int.toNat_ofNat, decide_eq_true_eq, zpow_neg, zpow_natCast]
    have h2 : (0 : ℚ) < (2 : ℚ) ^ j := by positivity
    rw [inv_eq_one_div, div_le_div_iff₀ h2 hdq]
    constructor
    · intro h
      have : ((d : Nat) : ℚ) ≤ ((n * 2 ^ j : Nat) : ℚ) := by exact_mod_cast h
      push_cast at this
      linarith
    · intro h
      have : ((d : Nat) : ℚ) ≤ ((n * 2 ^ j : Nat) : ℚ) := by push_cast; linarith
      exact_mod_cast this

theorem binade_le (n d : Nat) (hn : 0 < n) (hd : 0 < d) :
    (2 : ℚ) ^ binade n d ≤ (n : ℚ) / (d : ℚ) := by
  unfold binade
  split
  · rename_i h
    exact (pow2Le_iff _ n d hd).1 h
  · have hdq : (0 : ℚ) < (d : ℚ) := by exact_mod_cast hd
    have h1 := (ilog2_spec n hn).1
    have h2 := (ilog2_spec d hd).2
    have h1q : (2 : ℚ) ^ ilog2 n ≤ (n : ℚ) := by exact_mod_cast h1
    have h2q : (d : ℚ) ≤ (2 : ℚ) ^ (ilog2 d + 1) := by exact_mod_cast h2.le
    have e : (2 : ℚ) ^ ((ilog2 n : Int) - (ilog2 d : Int) - 1)
        = (2 : ℚ) ^ ilog2 n / (2 : ℚ) ^ (ilog2 d + 1) := by
      rw [show ((ilog2 n : Int) - (ilog2 d : Int) - 1) = (ilog2 n : Int) - ((ilog2 d + 1 : Nat) : Int)
        by push_cast; ring]
      rw [zpow_sub₀ (by norm_num), zpow_natCast, zpow_natCast]
    rw [e]
    have hp : (0 : ℚ) < (2 : ℚ) ^ (ilog2 d + 1) := by positivity
    rw [div_le_div_iff₀ hp hdq]
    have hp2 : (0 : ℚ) ≤ (2 : ℚ) ^ ilog2 n := by positivity
    nlinarith

theorem pow2Le_eq_false_iff (k : Int) (n d : Nat) (hd : 0 < d) :
    pow2Le k n d = false ↔ (n : ℚ) / (d : ℚ) < (2 : ℚ) ^ k := by
  rw [← not_le, ← pow2Le_iff k n d hd]
  simp

theorem binade_lt (n d : Nat) (hn : 0 < n) (hd : 0 < d) :
    (n : ℚ) / (d : ℚ) < (2 : ℚ) ^ (binade n d + 1) := by
  have hdq : (0 : ℚ) < (d : ℚ) := by exact_mod_cast hd
  unfold binade
  split
  · have h1 := (ilog2_spec n hn).2
    have h2 := (ilog2_spec d hd).1
    have h1q : (n : ℚ) < (2 : ℚ) ^ (ilog2 n + 1) := by exact_mod_cast h1
    have h2q : (2 : ℚ) ^ ilog2 d ≤ (d : ℚ) := by exact_mod_cast h2
    have e : (2 : ℚ) ^ ((ilog2 n : Int) - (ilog2 d : Int) + 1)
        = (2 : ℚ) ^ (ilog2 n + 1) / (2 : ℚ) ^ ilog2 d := by
      rw [show ((ilog2 n : Int) - (ilog2 d : Int) + 1) = ((ilog2 n + 1 : Nat) : Int) - (ilog2 d : Int)
        by push_cast; ring]
      rw [zpow_sub₀ (by norm_num), zpow_natCast, zpow_natCast]
    rw [e]
    have hp : (0 : ℚ) < (2 : ℚ) ^ ilog2 d := by positivity
    rw [div_lt_div_iff₀ hdq hp]
    have hp2 : (0 : ℚ) < (2 : ℚ) ^ (ilog2 n + 1) := by positivity
    nlinarith
  · rename_i h
    have h' : pow2Le ((ilog2 n : Int) - (ilog2 d : Int)) n d = false := by simpa using h
    have := (pow2Le_eq_false_iff _ n d hd).1 h'
    rw [show ((ilog2 n : Int) - (ilog2 d : Int) - 1 + 1) = (ilog2 n : Int) - (ilog2 d : Int) by ring]
    exact this

theorem roundHalfEven_err (n d : Nat) (hd : 0 < d) :
    |((roundHalfEven n d : Nat) : ℚ) - (n : ℚ) / (d : ℚ)| ≤ 1 / 2 := by
  have hdq : (0 : ℚ) < (d : ℚ) := by exact_mod_cast hd
  have hdiv : ((d * (n / d) + n % d : Nat) : ℚ) = (n : ℚ) := by rw [Nat.div_add_mod]
  push_cast at hdiv
  have hq : (n : ℚ) / (d : ℚ) = ((n / d : Nat) : ℚ) + ((n % d : Nat) : ℚ) / (d : ℚ) := by
    field_simp
    linarith
  have hr0 : (0 : ℚ) ≤ ((n % d : Nat) : ℚ) := by positivity
  have hrd : ((n % d : Nat) : ℚ) < (d : ℚ) := by exact_mod_cast Nat.mod_lt n hd
  have lo : 2 * (n % d) ≤ d →
      |((n / d : Nat) : ℚ) - (n : ℚ) / (d : ℚ)| ≤ 1 / 2 := by
    intro h
    have hq2 : (2 : ℚ) * ((n % d : Nat) : ℚ) ≤ (d : ℚ) := by exact_mod_cast h
    rw [hq, abs_le]
    constructor
    · have : ((n % d : Nat) : ℚ) / (d : ℚ) ≤ 1 / 2 := by
        rw [div_le_iff₀ hdq]; linarith
      linarith
    · have : (0 : ℚ) ≤ ((n % d : Nat) : ℚ) / (d : ℚ) := by positivity
      linarith
  have hi : d ≤ 2 * (n % d) →
      |((n / d + 1 : Nat) : ℚ) - (n : ℚ) / (d : ℚ)| ≤ 1 / 2 := by
    intro h
    have hq2 : (d : ℚ) ≤ (2 : ℚ) * ((n % d : Nat) : ℚ) := by exact_mod_cast h
    rw [hq, abs_le]
    push_cast
    constructor
    · have : ((n % d : Nat) : ℚ) / (d : ℚ) ≤ 1 := by
        rw [div_le_iff₀ hdq]; linarith
      linarith
    · have : 1 / 2 ≤ ((n % d : Nat) : ℚ) / (d : ℚ) := by
        rw [le_div_iff₀ hdq]; linarith
      linarith
  unfold roundHalfEven
  split_ifs with h1 h2 h3
  · exact lo (by omega)
  · exact hi (by omega)
  · exact lo (by omega)
  · exact hi (by omega)

theorem roundHalfEven_le (n d K : Nat) (hd : 0 < d) (h : n ≤ K * d) : roundHalfEven n d ≤ K := by
  have hq : n / d ≤ K := Nat.div_le_of_le_mul (by rw [Nat.mul_comm]; exact h)
  have hm := Nat.div_add_mod n d
  by_cases hK : n / d = K
  · have hr : n % d = 0 := by
      rw [hK] at hm
      have : d * K = K * d := Nat.mul_comm _ _
      omega
    unfold roundHalfEven
    rw [if_pos (by omega)]
    exact hq
  · have : n / d + 1 ≤ K := by omega
    unfold roundHalfEven
    split_ifs <;> omega

theorem roundPos_snd (n d : Nat) : (roundPos n d).2 = binade n d - 52 := by
  unfold roundPos
  split <;> rfl

theorem roundPos_err (n d : Nat) (hd : 0 < d) :
    |((roundPos n d).1 : ℚ) * (2 : ℚ) ^ (roundPos n d).2 - (n : ℚ) / (d : ℚ)|
      ≤ (2 : ℚ) ^ (roundPos n d).2 / 2 := by
  have hdq : (0 : ℚ) < (d : ℚ) := by exact_mod_cast hd
  unfold roundPos
  by_cases he : 0 ≤ binade n d - 52
  · rw [if_pos he]
    obtain ⟨j, hj⟩ := Int.eq_ofNat_of_zero_le he
    simp only [hj, Int.toNat_ofNat, zpow_natCast]
    have h2 : (0 : ℚ) < (2 : ℚ) ^ j := by positivity
    have herr := roundHalfEven_err n (d * 2 ^ j) (by positivity)
    push_cast at herr
    have e : ((roundHalfEven n (d * 2 ^ j) : Nat) : ℚ) * (2 : ℚ) ^ j - (n : ℚ) / (d : ℚ)
        = (((roundHalfEven n (d * 2 ^ j) : Nat) : ℚ) - (n : ℚ) / ((d : ℚ) * (2 : ℚ) ^ j))
          * (2 : ℚ) ^ j := by
      field_simp
      ring
    rw [e, abs_mul, abs_of_pos h2]
    calc _ ≤ 1 / 2 * (2 : ℚ) ^ j := mul_le_mul_of_nonneg_right herr h2.le
      _ = (2 : ℚ) ^ j / 2 := by ring
  · rw [if_neg he]
    obtain ⟨j, hj⟩ := Int.eq_ofNat_of_zero_le (show 0 ≤ -(binade n d - 52) by omega)
    have hj2 : binade n d - 52 = -(j : Int) := by omega
    simp only [hj2, neg_neg, Int.toNat_ofNat, zpow_neg, zpow_natCast]
    have h2 : (0 : ℚ) < (2 : ℚ) ^ j := by positivity
    have herr := roundHalfEven_err (n * 2 ^ j) d hd
    push_cast at herr
    have e : ((roundHalfEven (n * 2 ^ j) d : Nat) : ℚ) * ((2 : ℚ) ^ j)⁻¹ - (n : ℚ) / (d : ℚ)
        = (((roundHalfEven (n * 2 ^ j) d : Nat) : ℚ) - (n : ℚ) * (2 : ℚ) ^ j / (d : ℚ))
          * ((2 : ℚ) ^ j)⁻¹ := by
      field_simp
      ring
    rw [e, abs_mul, abs_of_pos (inv_pos.2 h2)]
    calc _ ≤ 1 / 2 * ((2 : ℚ) ^ j)⁻¹ := mul_le_mul_of_nonneg_right herr (inv_pos.2 h2).le
      _ = ((2 : ℚ) ^ j)⁻¹ / 2 := by ring

theorem roundPos_relative_err (n d : Nat) (hn : 0 < n) (hd : 0 < d) :
    |((roundPos n d).1 : ℚ) * (2 : ℚ) ^ (roundPos n d).2 - (n : ℚ) / (d : ℚ)| * 2 ^ 53
      ≤ (n : ℚ) / (d : ℚ) := by
  have h1 := roundPos_err n d hd
  have h2 := binade_le n d hn hd
  rw [roundPos_snd] at h1 ⊢
  have e : (2 : ℚ) ^ (binade n d - 52) = (2 : ℚ) ^ binade n d / 2 ^ 52 := by
    rw [zpow_sub₀ (by norm_num)]
    norm_num
  rw [e] at h1 ⊢
  have hb : (0 : ℚ) < (2 : ℚ) ^ binade n d := by positivity
  calc _ ≤ (2 : ℚ) ^ binade n d / 2 ^ 52 / 2 * 2 ^ 53 :=
        mul_le_mul_of_nonneg_right h1 (by positivity)
    _ = (2 : ℚ) ^ binade n d := by ring
    _ ≤ _ := h2

theorem divDouble_ofNat (m d : Nat) (hm : 0 < m) (hd : 0 < d) :
    divDouble (m : Int) d = ((roundPos m d).1 : ℚ) * (2 : ℚ) ^ (roundPos m d).2 := by
  unfold divDouble
  rw [if_neg (by omega), Int.sign_eq_one_of_pos (by omega), Int.natAbs_ofNat]
  simp

theorem divDouble_neg (m d : Nat) : divDouble (-(m : Int)) d = -divDouble (m : Int) d := by
  unfold divDouble
  by_cases h : m = 0
  · simp [h]
  · by_cases hd : d = 0
    · simp [hd]
    · rw [if_neg (by omega), if_neg (by omega), Int.sign_eq_neg_one_of_neg (by omega),
        Int.sign_eq_one_of_pos (by omega), Int.natAbs_neg]
      push_cast
      ring

theorem divDouble_zero (d : Nat) : divDouble 0 d = 0 := by
  simp [divDouble]

theorem divDouble_relative_err (n : Int) (d : Nat) (hd : 0 < d) :
    |divDouble n d - (n : ℚ) / (d : ℚ)| * 2 ^ 53 ≤ |(n : ℚ) / (d : ℚ)| := by
  have hdq : (0 : ℚ) < (d : ℚ) := by exact_mod_cast hd
  have key : ∀ m : Nat, 0 < m →
      |divDouble (m : Int) d - (m : ℚ) / (d : ℚ)| * 2 ^ 53 ≤ |(m : ℚ) / (d : ℚ)| := by
    intro m hm
    rw [divDouble_ofNat m d hm hd, abs_of_nonneg (show (0 : ℚ) ≤ (m : ℚ) / (d : ℚ) by positivity)]
    exact roundPos_relative_err m d hm hd
  rcases lt_trichotomy n 0 with hneg | hz | hpos
  · obtain ⟨m, hm⟩ : ∃ m : Nat, n = -(m : Int) := ⟨n.natAbs, by omega⟩
    subst hm
    have := key m (by omega)
    rw [divDouble_neg]
    push_cast
    rw [neg_div, ← neg_sub', abs_neg, abs_neg]
    exact this
  · subst hz
    simp [divDouble_zero]
  · obtain ⟨m, hm⟩ := Int.eq_ofNat_of_zero_le hpos.le
    subst hm
    have := key m (by omega)
    rw [Int.cast_natCast]
    exact this

theorem divDouble_bounds (n : Int) (d K : Nat) (hd : 0 < d) (hK : K < 2 ^ 52) (h0 : 0 ≤ n)
    (h : n ≤ K * d) : 0 ≤ divDouble n d ∧ divDouble n d ≤ K := by
  have hdq : (0 : ℚ) < (d : ℚ) := by exact_mod_cast hd
  obtain ⟨m, hm⟩ := Int.eq_ofNat_of_zero_le h0
  subst hm
  by_cases hz : m = 0
  · subst hz
    simp [divDouble_zero]
  · have hmpos : 0 < m := Nat.pos_of_ne_zero hz
    rw [divDouble_ofNat m d hmpos hd]
    constructor
    · positivity
    · have hnat : m ≤ K * d := by exact_mod_cast h
      have hb := binade_le m d hmpos hd
      have hq : (m : ℚ) / (d : ℚ) ≤ (K : ℚ) := by
        rw [div_le_iff₀ hdq]
        exact_mod_cast hnat
      have hlt : (2 : ℚ) ^ binade m d < (2 : ℚ) ^ (52 : Int) := by
        have hKq : (K : ℚ) < (2 : ℚ) ^ (52 : Int) := by
          have : (K : ℚ) < ((2 ^ 52 : Nat) : ℚ) := by exact_mod_cast hK
          rw [show ((52 : Int)) = ((52 : Nat) : Int) by rfl, zpow_natCast]
          exact_mod_cast this
        linarith
      have hb52 : binade m d < 52 := (zpow_lt_zpow_iff_right₀ (by norm_num)).1 hlt
      unfold roundPos
      rw [if_neg (by omega)]
      obtain ⟨j, hj⟩ := Int.eq_ofNat_of_zero_le (show 0 ≤ -(binade m d - 52) by omega)
      have hj2 : binade m d - 52 = -(j : Int) := by omega
      simp only [hj2, neg_neg, Int.toNat_ofNat, zpow_neg, zpow_natCast]
      have h2 : (0 : ℚ) < (2 : ℚ) ^ j := by positivity
      have hmle : roundHalfEven (m * 2 ^ j) d ≤ K * 2 ^ j := by
        apply roundHalfEven_le _ _ _ hd
        calc m * 2 ^ j ≤ K * d * 2 ^ j := Nat.mul_le_mul_right _ hnat
          _ = K * 2 ^ j * d := by ring
      have hmq : ((roundHalfEven (m * 2 ^ j) d : Nat) : ℚ) ≤ (K : ℚ) * (2 : ℚ) ^ j := by
        exact_mod_cast hmle
      rw [← div_eq_mul_inv, div_le_iff₀ h2]
      exact hmq

/-! ## The claims -/

/-- C1 (the code at the failing input): for no power-status reading does
`GetBatteryInfo` store "unknown" under "chargingStatus", and for the reading
ACLineStatus = 255 (AC status unknown), BatteryLifePercent = 50 it stores
"discharging". -/
theorem GetBatteryInfo_chargingStatus_never_unknown :
    (∀ status : SYSTEM_POWER_STATUS,
      (GetBatteryInfo (some status)).get? "chargingStatus" ≠ some (.string "unknown")) ∧
    (GetBatteryInfo (some ⟨255, 50⟩)).get? "chargingStatus" = some (.string "discharging") := by
  refine ⟨fun status => ?_, rfl⟩
  have h : (GetBatteryInfo (some status)).get? "chargingStatus" =
      some (.string (chargingStatus status)) := by
    simp [GetBatteryInfo, EncodableMap.get?_set_of_ne, EncodableMap.get?_set_self]
  rw [h]
  unfold chargingStatus
  split_ifs <;> simp

/-- C2 (the code at the failing input): when both `GetAdaptersInfo` calls fail,
and also when they return a single adapter of type 24 (software loopback),
`GetNetworkInfo` stores "unknown" under "ipAddress" and under "macAddress" and
stores `true` under "isConnected". -/
theorem GetNetworkInfo_isConnected_without_adapter :
    (GetNetworkInfo none none).get? "ipAddress" = some (.string "unknown") ∧
    (GetNetworkInfo none none).get? "macAddress" = some (.string "unknown") ∧
    (GetNetworkInfo none none).get? "isConnected" = some (.bool true) ∧
    (GetNetworkInfo (some (⟨24, "127.0.0.1".toList ++ [NUL], [0, 0, 0, 0, 0, 0, 0, 0]⟩, []))
      (some (⟨24, "127.0.0.1".toList ++ [NUL], [0, 0, 0, 0, 0, 0, 0, 0]⟩, []))).get? "ipAddress"
        = some (.string "unknown") ∧
    (GetNetworkInfo (some (⟨24, "127.0.0.1".toList ++ [NUL], [0, 0, 0, 0, 0, 0, 0, 0]⟩, []))
      (some (⟨24, "127.0.0.1".toList ++ [NUL], [0, 0, 0, 0, 0, 0, 0, 0]⟩, []))).get? "macAddress"
        = some (.string "unknown") ∧
    (GetNetworkInfo (some (⟨24, "127.0.0.1".toList ++ [NUL], [0, 0, 0, 0, 0, 0, 0, 0]⟩, []))
      (some (⟨24, "127.0.0.1".toList ++ [NUL], [0, 0, 0, 0, 0, 0, 0, 0]⟩, []))).get? "isConnected"
        = some (.bool true) :=
  ⟨rfl, rfl, rfl, rfl, rfl, rfl⟩

/-- C3: `HandleMethodCall` reports Success with the device, battery, sensor or
network record exactly when the method name is "getDeviceInfo",
"getBatteryInfo", "getSensorInfo" or "getNetworkInfo" respectively; it reports
NotImplemented exactly when the name is none of the four, and Success of any
value only for the four; the empty name and names that differ from the four in
case only are not implemented. -/
theorem HandleMethodCall_dispatch (os : OS) (method_name : String) :
    (HandleMethodCall os method_name = .Success (.map (GetDeviceInfo os))
      ↔ method_name = "getDeviceInfo") ∧
    (HandleMethodCall os method_name = .Success (.map (GetBatteryInfo os.powerStatus))
      ↔ method_name = "getBatteryInfo") ∧
    (HandleMethodCall os method_name = .Success (.map GetSensorInfo)
      ↔ method_name = "getSensorInfo") ∧
    (HandleMethodCall os method_name = .Success (.map (GetNetworkInfo os.adaptersIP os.adaptersMAC))
      ↔ method_name = "getNetworkInfo") ∧
    (HandleMethodCall os method_name = .NotImplemented
      ↔ method_name ∉ ["getDeviceInfo", "getBatteryInfo", "getSensorInfo", "getNetworkInfo"]) ∧
    ((∃ value, HandleMethodCall os method_name = .Success value)
      ↔ method_name ∈ ["getDeviceInfo", "getBatteryInfo", "getSensorInfo", "getNetworkInfo"]) ∧
    HandleMethodCall os "" = .NotImplemented ∧
    HandleMethodCall os "GetDeviceInfo" = .NotImplemented ∧
    HandleMethodCall os "getdeviceinfo" = .NotImplemented ∧
    HandleMethodCall os "GETBATTERYINFO" = .NotImplemented ∧
    HandleMethodCall os "getSensorinfo" = .NotImplemented ∧
    HandleMethodCall os "getNetworkINFO" = .NotImplemented := by
  have hdb := GetDeviceInfo_ne_GetBatteryInfo os os.powerStatus
  have hds := GetDeviceInfo_ne_GetSensorInfo os
  have hdn := GetDeviceInfo_ne_GetNetworkInfo os os.adaptersIP os.adaptersMAC
  have hbs := GetBatteryInfo_ne_GetSensorInfo os.powerStatus
  have hbn := GetBatteryInfo_ne_GetNetworkInfo os.powerStatus os.adaptersIP os.adaptersMAC
  have hsn := GetSensorInfo_ne_GetNetworkInfo os.adaptersIP os.adaptersMAC
  refine ⟨?_, ?_, ?_, ?_, ?_, ?_, rfl, rfl, rfl, rfl, rfl, rfl⟩
  all_goals
    unfold HandleMethodCall
    by_cases h1 : method_name = "getDeviceInfo"
    · subst h1
      simp [hdb, hds, hdn]
    · by_cases h2 : method_name = "getBatteryInfo"
      · subst h2
        simp [hdb.symm, hbs, hbn]
      · by_cases h3 : method_name = "getSensorInfo"
        · subst h3
          simp [hds.symm, hbs.symm, hsn]
        · by_cases h4 : method_name = "getNetworkInfo"
          · subst h4
            simp [hdn.symm, hbn.symm, hsn.symm]
          · simp [h1, h2, h3, h4]

/-- C4: for all register values, `GetProcessorFeatures` is the list of the tags
MMX, SSE, SSE2, AVX2, AVX512F, in this order, in which a tag is kept exactly
when its bit (EDX of leaf 1 bits 23, 25, 26; EBX of leaf 7 bits 5, 16) is set: it
is a sublist of the five tags without duplicates; EDX with bits 23, 25, 26 only
gives MMX, SSE, SSE2, and EBX with bit 5 only gives AVX2 and not AVX512F. -/
theorem GetProcessorFeatures_spec (cpuid : Nat → Nat → Nat) :
    GetProcessorFeatures cpuid = featuresSpec (cpuid 1 3 % 2 ^ 32) (cpuid 7 1 % 2 ^ 32) ∧
    (GetProcessorFeatures cpuid).Sublist ["MMX", "SSE", "SSE2", "AVX2", "AVX512F"] ∧
    (GetProcessorFeatures cpuid).Nodup ∧
    ("MMX" ∈ GetProcessorFeatures cpuid ↔ (cpuid 1 3 % 2 ^ 32).testBit 23 = true) ∧
    ("SSE" ∈ GetProcessorFeatures cpuid ↔ (cpuid 1 3 % 2 ^ 32).testBit 25 = true) ∧
    ("SSE2" ∈ GetProcessorFeatures cpuid ↔ (cpuid 1 3 % 2 ^ 32).testBit 26 = true) ∧
    ("AVX2" ∈ GetProcessorFeatures cpuid ↔ (cpuid 7 1 % 2 ^ 32).testBit 5 = true) ∧
    ("AVX512F" ∈ GetProcessorFeatures cpuid ↔ (cpuid 7 1 % 2 ^ 32).testBit 16 = true) ∧
    GetProcessorFeatures (fun leaf i => if leaf = 1 ∧ i = 3 then 2 ^ 23 + 2 ^ 25 + 2 ^ 26 else 0)
      = ["MMX", "SSE", "SSE2"] ∧
    (∀ edx : Nat,
      "AVX2" ∈ GetProcessorFeatures (fun leaf _ => if leaf = 7 then 2 ^ 5 else edx) ∧
      "AVX512F" ∉ GetProcessorFeatures (fun leaf _ => if leaf = 7 then 2 ^ 5 else edx)) := by
  have h := featuresSpec_props ((cpuid 1 3 % 2 ^ 32).testBit 23) ((cpuid 1 3 % 2 ^ 32).testBit 25)
    ((cpuid 1 3 % 2 ^ 32).testBit 26) ((cpuid 7 1 % 2 ^ 32).testBit 5)
    ((cpuid 7 1 % 2 ^ 32).testBit 16)
  refine ⟨GetProcessorFeatures_eq cpuid, ?_, ?_, ?_, ?_, ?_, ?_, ?_, ?_, ?_⟩
  · rw [GetProcessorFeatures_eq]; exact h.1
  · rw [GetProcessorFeatures_eq]; exact h.2.1
  · rw [GetProcessorFeatures_eq]; exact h.2.2.1
  · rw [GetProcessorFeatures_eq]; exact h.2.2.2.1
  · rw [GetProcessorFeatures_eq]; exact h.2.2.2.2.1
  · rw [GetProcessorFeatures_eq]; exact h.2.2.2.2.2.1
  · rw [GetProcessorFeatures_eq]; exact h.2.2.2.2.2.2
  · rfl
  · intro edx
    have h7 := featuresSpec_props ((edx % 2 ^ 32).testBit 23) ((edx % 2 ^ 32).testBit 25)
      ((edx % 2 ^ 32).testBit 26) true false
    have e : GetProcessorFeatures (fun leaf _ => if leaf = 7 then 2 ^ 5 else edx)
        = featuresSpec (edx % 2 ^ 32) (2 ^ 5 % 2 ^ 32) := by
      rw [GetProcessorFeatures_eq]; simp
    have t5 : (2 ^ 5 % 2 ^ 32).testBit 5 = true := by decide
    have t16 : (2 ^ 5 % 2 ^ 32).testBit 16 = false := by decide
    rw [e]
    simp only [featuresSpec, featureTable, t5, t16]
    exact ⟨h7.2.2.2.2.2.1.2 rfl, fun hc => by simpa using h7.2.2.2.2.2.2.1 hc⟩


theorem memoryInfo_get?_percentage (os : OS) :
    (memoryInfo os).get? "memoryUsagePercentage" =
      some (.double (memoryUsagePercentage (GetTotalPhysicalMemory os.memStatusTotal)
        (GetAvailablePhysicalMemory os.memStatusAvail))) := by
  simp [memoryInfo, EncodableMap.get?_set_self]

theorem GetDeviceInfo_get?_sub (os : OS) :
    (GetDeviceInfo os).get? "processorInfo" = some (.map (processorInfo os)) ∧
    (GetDeviceInfo os).get? "memoryInfo" = some (.map (memoryInfo os)) ∧
    (GetDeviceInfo os).get? "displayInfo" = some (.map (displayInfo os)) ∧
    (GetDeviceInfo os).get? "securityInfo" = some (.map securityInfo) := by
  unfold GetDeviceInfo
  simp [EncodableMap.get?_set_of_ne, EncodableMap.get?_set_self]

theorem GetTotalPhysicalMemory_range (r : Option MEMORYSTATUSEX) :
    -2 ^ 63 ≤ GetTotalPhysicalMemory r ∧ GetTotalPhysicalMemory r < 2 ^ 63 := by
  cases r with
  | none => simp [GetTotalPhysicalMemory]
  | some m => exact toInt64_range _

theorem GetAvailablePhysicalMemory_range (r : Option MEMORYSTATUSEX) :
    -2 ^ 63 ≤ GetAvailablePhysicalMemory r ∧ GetAvailablePhysicalMemory r < 2 ^ 63 := by
  cases r with
  | none => simp [GetAvailablePhysicalMemory]
  | some m => exact toInt64_range _

theorem memoryUsagePercentage_of_nonpos (totalMem availMem : Int) (h : totalMem ≤ 0) :
    memoryUsagePercentage totalMem availMem = 0 := by
  unfold memoryUsagePercentage
  rw [if_neg (by omega)]

theorem roundIntToDouble_of_lt (n : Int) (h1 : -2 ^ 53 < n) (h2 : n < 2 ^ 53) :
    roundIntToDouble n = n := by
  unfold roundIntToDouble
  rw [if_pos (by omega)]

theorem divDouble_of_pos (n : Int) (d m : Nat) (e : Int) (hn : 0 < n) (hd : 0 < d)
    (h : roundPos n.natAbs d = (m, e)) : divDouble n d = (m : ℚ) * (2 : ℚ) ^ e := by
  unfold divDouble
  rw [if_neg (by omega), Int.sign_eq_one_of_pos hn, h]
  simp

theorem divDouble_of_neg (n : Int) (d m : Nat) (e : Int) (hn : n < 0) (hd : 0 < d)
    (h : roundPos n.natAbs d = (m, e)) : divDouble n d = -((m : ℚ) * (2 : ℚ) ^ e) := by
  unfold divDouble
  rw [if_neg (by omega), Int.sign_eq_neg_one_of_neg hn, h]
  simp

theorem memoryUsagePercentage_of_exact (totalMem availMem : Int) (h : 0 < totalMem)
    (ht : totalMem < 2 ^ 53) (h1 : -2 ^ 53 < (totalMem - availMem) * 100)
    (h2 : (totalMem - availMem) * 100 < 2 ^ 53) :
    memoryUsagePercentage totalMem availMem
      = divDouble ((totalMem - availMem) * 100) totalMem.toNat := by
  unfold memoryUsagePercentage
  rw [if_pos (by omega), toInt64_of_range _ (by omega) (by omega),
    roundIntToDouble_of_lt (totalMem - availMem) (by omega) (by omega),
    roundIntToDouble_of_lt _ h1 h2, roundIntToDouble_of_lt totalMem (by omega) ht]

theorem memoryUsagePercentage_relative_err (totalMem availMem : Int) (h : 0 < totalMem)
    (ht : totalMem < 2 ^ 53) (h1 : -2 ^ 53 < (totalMem - availMem) * 100)
    (h2 : (totalMem - availMem) * 100 < 2 ^ 53) :
    |memoryUsagePercentage totalMem availMem
        - ((totalMem : ℚ) - (availMem : ℚ)) * 100 / (totalMem : ℚ)| * 2 ^ 53
      ≤ |((totalMem : ℚ) - (availMem : ℚ)) * 100 / (totalMem : ℚ)| := by
  rw [memoryUsagePercentage_of_exact _ _ h ht h1 h2]
  have herr := divDouble_relative_err ((totalMem - availMem) * 100) totalMem.toNat (by omega)
  have hc : ((totalMem.toNat : Nat) : ℚ) = (totalMem : ℚ) := by
    have : ((totalMem.toNat : Nat) : Int) = totalMem := Int.toNat_of_nonneg h.le
    exact_mod_cast this
  rw [hc] at herr
  push_cast at herr
  exact herr

theorem memoryUsagePercentage_bounds (totalMem availMem : Int) (h : 0 < totalMem)
    (ht : totalMem * 100 < 2 ^ 53) (ha : 0 ≤ availMem) (hle : availMem ≤ totalMem) :
    0 ≤ memoryUsagePercentage totalMem availMem ∧
    memoryUsagePercentage totalMem availMem ≤ 100 := by
  rw [memoryUsagePercentage_of_exact _ _ h (by omega) (by omega) (by omega)]
  have hb := divDouble_bounds ((totalMem - availMem) * 100) totalMem.toNat 100 (by omega)
    (by norm_num) (by omega) (by
      have : ((totalMem.toNat : Nat) : Int) = totalMem := Int.toNat_of_nonneg h.le
      rw [this]
      omega)
  simpa using hb

/-- C5 (counterexample): five readings at which the claim fails.  With 12 GiB in
total and 4 GiB available the value is the double 4691249611844267 / 2^46, not
the quotient 200/3.  With 407975151606583 bytes in total and available memory 0
(the second status call failed) the product by 100.0 is rounded and the value is
100 + 2^-46: above 100, and further from the quotient 100 than 100 * 2^-53.  With
a total of 2^53 + 3 and 7 bytes less available the total is rounded in
conversion and the value is further from the quotient than the quotient times
2^-53.  With 4 GiB in total from the first call and 8 GiB available from the
second the value is -100.  With a total of 100 and an available amount read as
-1 (the unsigned value 2^64 - 1) the value is 101. -/
theorem memoryUsagePercentage_counterexamples :
    memoryUsagePercentage 12884901888 4294967296 = 4691249611844267 / 2 ^ 46 ∧
    memoryUsagePercentage 12884901888 4294967296
      ≠ ((12884901888 : ℚ) - 4294967296) * 100 / 12884901888 ∧
    GetTotalPhysicalMemory (some ⟨407975151606583, 0⟩) = 407975151606583 ∧
    GetAvailablePhysicalMemory none = 0 ∧
    (memoryInfo { exampleOS with
        memStatusTotal := some ⟨407975151606583, 0⟩,
        memStatusAvail := none }).get? "memoryUsagePercentage"
      = some (.double (100 + 1 / 2 ^ 46)) ∧
    ¬ (memoryUsagePercentage 407975151606583 0 ≤ 100) ∧
    ¬ (|memoryUsagePercentage 407975151606583 0
          - ((407975151606583 : ℚ) - 0) * 100 / 407975151606583| * 2 ^ 53
        ≤ |((407975151606583 : ℚ) - 0) * 100 / 407975151606583|) ∧
    memoryUsagePercentage 9007199254740995 9007199254740988 = 6157265115545597 / 2 ^ 96 ∧
    ¬ (|memoryUsagePercentage 9007199254740995 9007199254740988
          - ((9007199254740995 : ℚ) - 9007199254740988) * 100 / 9007199254740995| * 2 ^ 53
        ≤ |((9007199254740995 : ℚ) - 9007199254740988) * 100 / 9007199254740995|) ∧
    GetTotalPhysicalMemory (some ⟨4294967296, 1073741824⟩) = 4294967296 ∧
    GetAvailablePhysicalMemory (some ⟨8589934592, 8589934592⟩) = 8589934592 ∧
    memoryUsagePercentage 4294967296 8589934592 = -100 ∧
    GetTotalPhysicalMemory (some ⟨100, 100⟩) = 100 ∧
    GetAvailablePhysicalMemory (some ⟨18446744073709551615, 18446744073709551615⟩) = -1 ∧
    memoryUsagePercentage 100 (-1) = 101 := by
  have e1 : memoryUsagePercentage 12884901888 4294967296 = 4691249611844267 / 2 ^ 46 := by
    rw [memoryUsagePercentage_of_exact _ _ (by decide) (by decide) (by decide) (by decide),
      divDouble_of_pos _ _ 4691249611844267 (-46) (by decide) (by decide) (by decide)]
    norm_num
  have e2 : memoryUsagePercentage 407975151606583 0 = 100 + 1 / 2 ^ 46 := by
    have hp : roundIntToDouble (roundIntToDouble (toInt64 (407975151606583 - 0)) * 100)
        = 40797515160658304 := by decide
    have ht : (roundIntToDouble 407975151606583).toNat = 407975151606583 := by decide
    unfold memoryUsagePercentage
    rw [if_pos (by decide), hp, ht,
      divDouble_of_pos _ _ 7036874417766401 (-46) (by decide) (by decide) (by decide)]
    norm_num
  have e3 : memoryUsagePercentage 4294967296 8589934592 = -100 := by
    rw [memoryUsagePercentage_of_exact _ _ (by decide) (by decide) (by decide) (by decide),
      divDouble_of_neg _ _ 7036874417766400 (-46) (by decide) (by decide) (by decide)]
    norm_num
  have e4 : memoryUsagePercentage 100 (-1) = 101 := by
    rw [memoryUsagePercentage_of_exact _ _ (by decide) (by decide) (by decide) (by decide),
      divDouble_of_pos _ _ 7107243161944064 (-46) (by decide) (by decide) (by decide)]
    norm_num
  have e5 : memoryUsagePercentage 9007199254740995 9007199254740988
      = 6157265115545597 / 2 ^ 96 := by
    have hp : roundIntToDouble (roundIntToDouble
        (toInt64 (9007199254740995 - 9007199254740988)) * 100) = 700 := by decide
    have ht : (roundIntToDouble 9007199254740995).toNat = 9007199254740996 := by decide
    unfold memoryUsagePercentage
    rw [if_pos (by decide), hp, ht,
      divDouble_of_pos _ _ 6157265115545597 (-96) (by decide) (by decide) (by decide)]
    norm_num
  have t2 : GetTotalPhysicalMemory (some ⟨407975151606583, 0⟩) = 407975151606583 := by decide
  refine ⟨e1, ?_, t2, rfl, ?_, ?_, ?_, e5, ?_, by decide, by decide, e3, by decide, by decide,
    e4⟩
  · rw [e1]; norm_num
  · rw [memoryInfo_get?_percentage]
    show some (EncodableValue.double (memoryUsagePercentage
      (GetTotalPhysicalMemory (some ⟨407975151606583, 0⟩))
      (GetAvailablePhysicalMemory none))) = _
    rw [t2, show GetAvailablePhysicalMemory none = 0 from rfl, e2]
  · rw [e2]; norm_num
  · rw [e2]; norm_num [abs_of_pos]
  · rw [e5]
    have hneg : (6157265115545597 : ℚ) / 2 ^ 96
        - ((9007199254740995 : ℚ) - 9007199254740988) * 100 / 9007199254740995 < 0 := by
      norm_num
    rw [abs_of_neg hneg]
    norm_num [abs_of_pos]

/-- C5 (amended): in the record of `GetDeviceInfo`, "memoryUsagePercentage" is
0.0 when the total returned by `GetTotalPhysicalMemory` is not positive.  When
the total is positive it is (totalMem - availMem) * 100.0 / totalMem evaluated in
double arithmetic: if the total and the magnitude of (totalMem - availMem) * 100
are below 2^53 it differs from the exact quotient by at most that quotient
times 2^-53, and if totalMem * 100 is below 2^53 and 0 <= availMem <= totalMem it
lies in [0, 100]. -/
theorem memoryUsagePercentage_spec (os : OS) :
    (GetDeviceInfo os).get? "memoryInfo" = some (.map (memoryInfo os)) ∧
    (memoryInfo os).get? "memoryUsagePercentage" =
      some (.double (memoryUsagePercentage (GetTotalPhysicalMemory os.memStatusTotal)
        (GetAvailablePhysicalMemory os.memStatusAvail))) ∧
    (GetTotalPhysicalMemory os.memStatusTotal ≤ 0 →
      memoryUsagePercentage (GetTotalPhysicalMemory os.memStatusTotal)
        (GetAvailablePhysicalMemory os.memStatusAvail) = 0) ∧
    (0 < GetTotalPhysicalMemory os.memStatusTotal →
      GetTotalPhysicalMemory os.memStatusTotal < 2 ^ 53 →
      -2 ^ 53 < (GetTotalPhysicalMemory os.memStatusTotal
                  - GetAvailablePhysicalMemory os.memStatusAvail) * 100 →
      (GetTotalPhysicalMemory os.memStatusTotal
          - GetAvailablePhysicalMemory os.memStatusAvail) * 100 < 2 ^ 53 →
      |memoryUsagePercentage (GetTotalPhysicalMemory os.memStatusTotal)
            (GetAvailablePhysicalMemory os.memStatusAvail)
          - ((GetTotalPhysicalMemory os.memStatusTotal : ℚ)
              - (GetAvailablePhysicalMemory os.memStatusAvail : ℚ)) * 100
            / (GetTotalPhysicalMemory os.memStatusTotal : ℚ)| * 2 ^ 53
        ≤ |((GetTotalPhysicalMemory os.memStatusTotal : ℚ)
              - (GetAvailablePhysicalMemory os.memStatusAvail : ℚ)) * 100
            / (GetTotalPhysicalMemory os.memStatusTotal : ℚ)|) ∧
    (0 < GetTotalPhysicalMemory os.memStatusTotal →
      GetTotalPhysicalMemory os.memStatusTotal * 100 < 2 ^ 53 →
      0 ≤ GetAvailablePhysicalMemory os.memStatusAvail →
      GetAvailablePhysicalMemory os.memStatusAvail ≤ GetTotalPhysicalMemory os.memStatusTotal →
      0 ≤ memoryUsagePercentage (GetTotalPhysicalMemory os.memStatusTotal)
            (GetAvailablePhysicalMemory os.memStatusAvail) ∧
      memoryUsagePercentage (GetTotalPhysicalMemory os.memStatusTotal)
            (GetAvailablePhysicalMemory os.memStatusAvail) ≤ 100) :=
  ⟨(GetDeviceInfo_get?_sub os).2.1, memoryInfo_get?_percentage os,
    memoryUsagePercentage_of_nonpos _ _,
    fun h1 h2 h3 h4 => memoryUsagePercentage_relative_err _ _ h1 h2 h3 h4,
    fun h1 h2 h3 h4 => memoryUsagePercentage_bounds _ _ h1 h2 h3 h4⟩

/-- C5 (witness): on the example PC, 8 GiB in total and 4 GiB available, the
percentage lies in [0, 100] and is within the rounding error of the quotient. -/
theorem memoryUsagePercentage_spec_witness :
    (0 : Int) < GetTotalPhysicalMemory exampleOS.memStatusTotal ∧
    GetTotalPhysicalMemory exampleOS.memStatusTotal * 100 < 2 ^ 53 ∧
    (0 : Int) ≤ GetAvailablePhysicalMemory exampleOS.memStatusAvail ∧
    GetAvailablePhysicalMemory exampleOS.memStatusAvail
      ≤ GetTotalPhysicalMemory exampleOS.memStatusTotal ∧
    (0 ≤ memoryUsagePercentage (GetTotalPhysicalMemory exampleOS.memStatusTotal)
            (GetAvailablePhysicalMemory exampleOS.memStatusAvail) ∧
      memoryUsagePercentage (GetTotalPhysicalMemory exampleOS.memStatusTotal)
            (GetAvailablePhysicalMemory exampleOS.memStatusAvail) ≤ 100) ∧
    |memoryUsagePercentage (GetTotalPhysicalMemory exampleOS.memStatusTotal)
          (GetAvailablePhysicalMemory exampleOS.memStatusAvail)
        - ((GetTotalPhysicalMemory exampleOS.memStatusTotal : ℚ)
            - (GetAvailablePhysicalMemory exampleOS.memStatusAvail : ℚ)) * 100
          / (GetTotalPhysicalMemory exampleOS.memStatusTotal : ℚ)| * 2 ^ 53
      ≤ |((GetTotalPhysicalMemory exampleOS.memStatusTotal : ℚ)
            - (GetAvailablePhysicalMemory exampleOS.memStatusAvail : ℚ)) * 100
          / (GetTotalPhysicalMemory exampleOS.memStatusTotal : ℚ)| :=
  ⟨by decide, by decide, by decide, by decide,
    (memoryUsagePercentage_spec exampleOS).2.2.2.2 (by decide) (by decide) (by decide)
      (by decide),
    (memoryUsagePercentage_spec exampleOS).2.2.2.1 (by decide) (by decide) (by decide)
      (by decide)⟩

theorem macSpec_formatMAC (a : IP_ADAPTER_INFO) :
    String.mk (formatMAC a) =
      macSpec [addressByte a 0, addressByte a 1, addressByte a 2, addressByte a 3,
        addressByte a 4, addressByte a 5] := by
  rw [formatMAC_eq]
  simp [macSpec, twoHexUpper, List.intercalate, List.intersperse]

theorem find?_of_split (pre post : List IP_ADAPTER_INFO) (a : IP_ADAPTER_INFO)
    (hpre : ∀ x ∈ pre, isEthernetOrWifi x = false) (ha : isEthernetOrWifi a = true) :
    (pre ++ a :: post).find? isEthernetOrWifi = some a := by
  induction pre with
  | nil => simp [List.find?, ha]
  | cons x pre ih =>
    have hx : isEthernetOrWifi x = false := hpre x (List.mem_cons_self _ _)
    have := ih (fun y hy => hpre y (List.mem_cons_of_mem _ hy))
    simp [List.find?, hx, this]

theorem hexDigitUpper_mem : ∀ d, d < 16 → hexDigitUpper d ∈ "0123456789ABCDEF".toList := by
  decide

theorem twoHexUpper_digits (b : Nat) (hb : b < 256) :
    ∀ c ∈ twoHexUpper b, c ∈ "0123456789ABCDEF".toList := by
  intro c hc
  simp only [twoHexUpper, List.mem_cons, List.mem_singleton, List.not_mem_nil, or_false] at hc
  rcases hc with rfl | rfl
  · exact hexDigitUpper_mem _ (by omega)
  · exact hexDigitUpper_mem _ (Nat.mod_lt _ (by norm_num))

/-- C6: when `GetAdaptersInfo` returns the adapters `pre ++ a :: post` where no
adapter of `pre` has type 6 or 71 and `a` has, `GetIPAddress` returns the IP
address string of `a` and `GetMACAddress` returns the first six address bytes of
`a` as two-digit uppercase hexadecimal groups separated by colons, a text of 17
characters; bytes 00 1a 2b 3c 4d 5e give "00:1A:2B:3C:4D:5E". -/
theorem GetIPAddress_GetMACAddress_first_match (first : IP_ADAPTER_INFO)
    (rest pre post : List IP_ADAPTER_INFO) (a : IP_ADAPTER_INFO)
    (hsplit : first :: rest = pre ++ a :: post)
    (hpre : ∀ x ∈ pre, isEthernetOrWifi x = false) (ha : isEthernetOrWifi a = true) :
    GetIPAddress (some (first, rest)) = cString a.IpAddressString ∧
    GetMACAddress (some (first, rest)) =
      macSpec [addressByte a 0, addressByte a 1, addressByte a 2, addressByte a 3,
        addressByte a 4, addressByte a 5] ∧
    (GetMACAddress (some (first, rest))).length = 17 ∧
    (∀ i, addressByte a i < 256 ∧ ∀ c ∈ twoHexUpper (addressByte a i),
      c ∈ "0123456789ABCDEF".toList) ∧
    macSpec [0x00, 0x1a, 0x2b, 0x3c, 0x4d, 0x5e] = "00:1A:2B:3C:4D:5E" := by
  have hf : (first :: rest).find? isEthernetOrWifi = some a := by
    rw [hsplit]; exact find?_of_split pre post a hpre ha
  have hb : ∀ i, addressByte a i < 256 := fun i => Nat.mod_lt _ (by norm_num)
  have hmac : GetMACAddress (some (first, rest)) = String.mk (formatMAC a) := by
    simp only [GetMACAddress, GetMACAddress_walk_eq_find, hf, Option.map]
  refine ⟨?_, ?_, ?_, fun i => ⟨hb i, twoHexUpper_digits _ (hb i)⟩, by decide⟩
  · simp only [GetIPAddress, GetIPAddress_walk_eq_find, hf, Option.map]
  · rw [hmac, macSpec_formatMAC]
  · rw [hmac, formatMAC_eq]; rfl

/-- C6 (witness): a loopback adapter (type 24) followed by a wireless adapter
(type 71) with address 00 1a 2b 3c 4d 5e and then an Ethernet adapter: the
wireless adapter is reported. -/
theorem GetIPAddress_GetMACAddress_first_match_witness :
    GetIPAddress (some (⟨24, "127.0.0.1".toList ++ [NUL], [0, 0, 0, 0, 0, 0, 0, 0]⟩,
      [⟨71, "192.168.1.7".toList ++ [NUL], [0x00, 0x1a, 0x2b, 0x3c, 0x4d, 0x5e, 0, 0]⟩,
       ⟨6, "10.0.0.2".toList ++ [NUL], [1, 2, 3, 4, 5, 6, 0, 0]⟩])) = "192.168.1.7" ∧
    GetMACAddress (some (⟨24, "127.0.0.1".toList ++ [NUL], [0, 0, 0, 0, 0, 0, 0, 0]⟩,
      [⟨71, "192.168.1.7".toList ++ [NUL], [0x00, 0x1a, 0x2b, 0x3c, 0x4d, 0x5e, 0, 0]⟩,
       ⟨6, "10.0.0.2".toList ++ [NUL], [1, 2, 3, 4, 5, 6, 0, 0]⟩])) = "00:1A:2B:3C:4D:5E" := by
  have h := GetIPAddress_GetMACAddress_first_match
    ⟨24, "127.0.0.1".toList ++ [NUL], [0, 0, 0, 0, 0, 0, 0, 0]⟩
    [⟨71, "192.168.1.7".toList ++ [NUL], [0x00, 0x1a, 0x2b, 0x3c, 0x4d, 0x5e, 0, 0]⟩,
     ⟨6, "10.0.0.2".toList ++ [NUL], [1, 2, 3, 4, 5, 6, 0, 0]⟩]
    [⟨24, "127.0.0.1".toList ++ [NUL], [0, 0, 0, 0, 0, 0, 0, 0]⟩]
    [⟨6, "10.0.0.2".toList ++ [NUL], [1, 2, 3, 4, 5, 6, 0, 0]⟩]
    ⟨71, "192.168.1.7".toList ++ [NUL], [0x00, 0x1a, 0x2b, 0x3c, 0x4d, 0x5e, 0, 0]⟩
    rfl (by simp [isEthernetOrWifi]) (by decide)
  exact ⟨h.1.trans (by decide), h.2.1.trans (by decide)⟩

/-- C7: `GetBatteryInfo` returns the empty record exactly when the power-status
query fails; when it succeeds the record has the six keys batteryLevel,
chargingStatus, batteryHealth, batteryCapacity, batteryVoltage and
batteryTemperature, each once, with batteryLevel the reported
BatteryLifePercent byte and batteryHealth "good", batteryCapacity 0,
batteryVoltage 0.0, batteryTemperature 0.0. -/
theorem GetBatteryInfo_record (powerStatus : Option SYSTEM_POWER_STATUS) :
    (GetBatteryInfo powerStatus = [] ↔ powerStatus = none) ∧
    (∀ status : SYSTEM_POWER_STATUS,
      (GetBatteryInfo (some status)).keys =
        ["batteryLevel", "chargingStatus", "batteryHealth", "batteryCapacity",
         "batteryVoltage", "batteryTemperature"] ∧
      (GetBatteryInfo (some status)).keys.Nodup ∧
      (GetBatteryInfo (some status)).get? "batteryLevel" =
        some (.int32 ((status.BatteryLifePercent % 256 : Nat) : Int)) ∧
      (GetBatteryInfo (some status)).get? "chargingStatus" =
        some (.string (chargingStatus status)) ∧
      (GetBatteryInfo (some status)).get? "batteryHealth" = some (.string "good") ∧
      (GetBatteryInfo (some status)).get? "batteryCapacity" = some (.int32 0) ∧
      (GetBatteryInfo (some status)).get? "batteryVoltage" = some (.double 0) ∧
      (GetBatteryInfo (some status)).get? "batteryTemperature" = some (.double 0)) := by
  have hrec : ∀ status : SYSTEM_POWER_STATUS, GetBatteryInfo (some status) =
      [("batteryLevel", .int32 ((status.BatteryLifePercent % 256 : Nat) : Int)),
       ("chargingStatus", .string (chargingStatus status)),
       ("batteryHealth", .string "good"), ("batteryCapacity", .int32 0),
       ("batteryVoltage", .double 0), ("batteryTemperature", .double 0)] := by
    intro status
    have hp : toInt32 ((status.BatteryLifePercent : Int) % 256)
        = ((status.BatteryLifePercent % 256 : Nat) : Int) := by
      have : status.BatteryLifePercent % 256 < 256 := Nat.mod_lt _ (by norm_num)
      rw [toInt32_of_range _ (by omega) (by omega)]
      push_cast
      rfl
    simp [GetBatteryInfo, EncodableMap.set, hp]
  constructor
  · cases powerStatus with
    | none => simp [GetBatteryInfo]
    | some status => simp [hrec]
  · intro status
    rw [hrec]
    refine ⟨rfl, by simp [EncodableMap.keys], ?_, ?_, ?_, ?_, ?_, ?_⟩ <;>
      simp [EncodableMap.get?]

/-- C8: for every architecture code, `GetProcessorArchitecture` returns "x86_64"
exactly for 9, "arm" exactly for 5, "arm64" exactly for 12, "ia64" exactly for
6, "x86" exactly for 0 and "unknown" exactly for every other 16-bit code. -/
theorem GetProcessorArchitecture_spec (si : SYSTEM_INFO) :
    (GetProcessorArchitecture si = "x86_64" ↔ si.wProcessorArchitecture % 2 ^ 16 = 9) ∧
    (GetProcessorArchitecture si = "arm" ↔ si.wProcessorArchitecture % 2 ^ 16 = 5) ∧
    (GetProcessorArchitecture si = "arm64" ↔ si.wProcessorArchitecture % 2 ^ 16 = 12) ∧
    (GetProcessorArchitecture si = "ia64" ↔ si.wProcessorArchitecture % 2 ^ 16 = 6) ∧
    (GetProcessorArchitecture si = "x86" ↔ si.wProcessorArchitecture % 2 ^ 16 = 0) ∧
    (GetProcessorArchitecture si = "unknown" ↔
      si.wProcessorArchitecture % 2 ^ 16 ∉ [9, 5, 12, 6, 0]) ∧
    PROCESSOR_ARCHITECTURE_AMD64 = 9 ∧ PROCESSOR_ARCHITECTURE_ARM = 5 ∧
    PROCESSOR_ARCHITECTURE_ARM64 = 12 ∧ PROCESSOR_ARCHITECTURE_IA64 = 6 ∧
    PROCESSOR_ARCHITECTURE_INTEL = 0 ∧
    ["x86_64", "arm", "arm64", "ia64", "x86", "unknown"].Nodup := by
  refine ⟨?_, ?_, ?_, ?_, ?_, ?_, rfl, rfl, rfl, rfl, rfl, by decide⟩
  all_goals
    unfold GetProcessorArchitecture PROCESSOR_ARCHITECTURE_AMD64 PROCESSOR_ARCHITECTURE_ARM
      PROCESSOR_ARCHITECTURE_ARM64 PROCESSOR_ARCHITECTURE_IA64 PROCESSOR_ARCHITECTURE_INTEL
    generalize si.wProcessorArchitecture % 2 ^ 16 = c
    simp only []
    split_ifs <;> simp_all

/-- C10: in the display record built by `GetDeviceInfo`, "orientation" is
"landscape" exactly when the width returned by `GetScreenWidth` is greater than
the height returned by `GetScreenHeight`, and "portrait" otherwise; equal
dimensions give "portrait". -/
theorem displayInfo_orientation (os : OS) :
    (GetDeviceInfo os).get? "displayInfo" = some (.map (displayInfo os)) ∧
    (displayInfo os).get? "screenWidth" = some (.int32 (GetScreenWidth os.cxScreen)) ∧
    (displayInfo os).get? "screenHeight" = some (.int32 (GetScreenHeight os.cyScreen)) ∧
    ((displayInfo os).get? "orientation" = some (.string "landscape")
      ↔ GetScreenWidth os.cxScreen > GetScreenHeight os.cyScreen) ∧
    ((displayInfo os).get? "orientation" = some (.string "portrait")
      ↔ ¬ GetScreenWidth os.cxScreen > GetScreenHeight os.cyScreen) ∧
    (∀ width : Int, orientation width width = "portrait") ∧
    (∀ width height : Int, -2 ^ 31 ≤ width ∧ width < 2 ^ 31 ∧ -2 ^ 31 ≤ height ∧ height < 2 ^ 31 ↔
      ∃ cx cy : Int, GetScreenWidth cx = width ∧ GetScreenHeight cy = height) := by
  have ho : (displayInfo os).get? "orientation" =
      some (.string (orientation (GetScreenWidth os.cxScreen) (GetScreenHeight os.cyScreen))) := by
    simp [displayInfo, EncodableMap.get?_set_of_ne, EncodableMap.get?_set_self]
  refine ⟨(GetDeviceInfo_get?_sub os).2.2.1, ?_, ?_, ?_, ?_, ?_, ?_⟩
  · simp [displayInfo, EncodableMap.get?_set_of_ne, EncodableMap.get?_set_self]
  · simp [displayInfo, EncodableMap.get?_set_of_ne, EncodableMap.get?_set_self]
  · rw [ho]; unfold orientation; split_ifs with h <;> simp [h]
  · rw [ho]; unfold orientation; split_ifs with h <;> simp [h]
  · intro width; simp [orientation]
  · intro width height
    constructor
    · rintro ⟨h1, h2, h3, h4⟩
      exact ⟨width, height, toInt32_of_range _ h1 h2, toInt32_of_range _ h3 h4⟩
    · rintro ⟨cx, cy, rfl, rfl⟩
      exact ⟨(toInt32_range cx).1, (toInt32_range cx).2, (toInt32_range cy).1,
        (toInt32_range cy).2⟩

theorem cString_terminated (name rest : List Char) (h : NUL ∉ name) :
    cString (name ++ NUL :: rest) = String.mk name := by
  unfold cString
  congr 1
  have h1 : List.takeWhile (fun c => c != NUL) name = name := by
    rw [List.takeWhile_eq_self_iff]
    intro c hc
    simp only [bne_iff_ne, ne_eq]
    rintro rfl
    exact h hc
  rw [List.takeWhile_append, h1]
  simp [List.takeWhile]

/-- The entry "deviceName" in both outcomes of `GetComputerNameA`: after a failure
it is the C string of whatever the buffer held before the call; after a success
that writes a NUL-free name and its terminator it is that name. -/
theorem GetDeviceInfo_deviceName_cases (os : OS) (name : List Char) :
    (os.GetComputerNameA = none →
      (GetDeviceInfo os).get? "deviceName" = some (.string (cString os.computerName))) ∧
    (NUL ∉ name → os.GetComputerNameA = some (name ++ [NUL]) →
      (GetDeviceInfo os).get? "deviceName" = some (.string (String.mk name))) := by
  rw [GetDeviceInfo_get?_deviceName]
  constructor
  · intro h
    simp only [computerNameAfter, h]
  · intro hn h
    simp only [computerNameAfter, h, writeBuffer, List.append_assoc, List.singleton_append,
      cString_terminated _ _ hn]

/-- C11 (the code at the failing input): when `GetComputerNameA` fails and the
uninitialised buffer `computerName` holds the bytes of "GARBAGE" followed by
NUL bytes, the entry "deviceName" of `GetDeviceInfo` is "GARBAGE", not the empty
string. -/
theorem GetDeviceInfo_deviceName_after_failure :
    (GetDeviceInfo { exampleOS with
        computerName := "GARBAGE".toList ++ List.replicate 9 NUL,
        GetComputerNameA := none }).get? "deviceName" = some (.string "GARBAGE") ∧
    (GetDeviceInfo { exampleOS with
        computerName := "GARBAGE".toList ++ List.replicate 9 NUL,
        GetComputerNameA := none }).get? "deviceName" ≠ some (.string "") := by
  have h : (GetDeviceInfo { exampleOS with
        computerName := "GARBAGE".toList ++ List.replicate 9 NUL,
        GetComputerNameA := none }).get? "deviceName" = some (.string "GARBAGE") := rfl
  refine ⟨h, ?_⟩
  rw [h]
  simp

end flutter_device_info_plus
